import Mathlib

/-!
# Speedtype: test-session lifecycle and result integrity

A shallow embedding of the server models, the test and auth controllers, the
submission validation and the client's scoring functions and typing hook of the
Speedtype typing-test application, and theorems about them.

Conventions of the embedding.

* The MySQL database is an explicit `Store` value: one list of rows per table,
  in insertion order.  A `SELECT` is a `List.filter`, an `UPDATE ... WHERE` is a
  `List.map` that rewrites the matching rows, an `INSERT` appends a row whose id
  is the table's next auto-increment value.
* `NOW()` / `Date.now()` is an explicit clock argument `now`, in milliseconds.
* `crypto.randomBytes` / SHA-256 are not part of the repository: the generated
  token is an argument of `createTestSession`, the hash functions are the
  fields of `TokenUtils`.
* The numeric columns `wpm`, `best_wpm`, `avg_wpm`, ... are exact rationals.
* A JavaScript function that mutates the database and then returns or throws
  is a function from the store to the new store together with the outcome.
-/

namespace Speedtype

/-! ## Data model -/

/-- The hashing helpers of `utils/tokenUtils.js` (SHA-256 of node's `crypto`). -/
structure TokenUtils where
  hashTestSessionToken : String → String
  hashString : String → String

/-- A row of the table `test_sessions`. -/
structure TestSessionRow where
  id : Nat
  user_id : Option Nat
  guest_session_id : Option Nat
  test_text_id : Nat
  duration_seconds : Int
  token_hash : String
  ip_address : Option String
  user_agent_hash : Option String
  expires_at : Int
  is_used : Bool
  used_at : Option Int
  deriving DecidableEq, Repr

/-- A row of the table `guest_sessions`. -/
structure GuestSessionRow where
  id : Nat
  guest_id : String
  created_at : Int
  last_seen_at : Int
  is_active : Bool
  deriving DecidableEq, Repr

/-- A row of the table `test_results`. -/
structure TestResultRow where
  id : Nat
  user_id : Option Nat
  guest_session_id : Option Nat
  test_session_id : Nat
  wpm : ℚ
  accuracy : ℚ
  correct_chars : Int
  incorrect_chars : Int
  total_chars : Int
  test_duration_seconds : Int
  text_snippet : Option String
  raw_wpm : ℚ
  created_at : Int
  deriving DecidableEq, Repr

/-- A row of the table `users`, restricted to the columns the models below touch. -/
structure UserRow where
  id : Nat
  username : String
  best_wpm : ℚ
  avg_wpm : ℚ
  total_tests : Nat
  updated_at : Int
  is_active : Bool
  email : String := ""
  password_hash : String := ""
  avatar_url : Option String := none
  created_at : Int := 0
  deriving DecidableEq, Repr

/-- A row of the table `refresh_tokens`. -/
structure RefreshTokenRow where
  id : Nat
  user_id : Nat
  token_hash : String
  device_info : Option String
  ip_address : Option String
  expires_at : Int
  is_revoked : Bool
  deriving DecidableEq, Repr

/-- A row of the table `test_texts`. -/
structure TestTextRow where
  id : Nat
  content : String
  language : String
  difficulty : String
  word_count : Nat
  is_active : Bool
  deriving DecidableEq, Repr

/-- The database: the tables the core reads and writes (`test_texts` and
`refresh_tokens` are empty unless stated otherwise). -/
structure Store where
  test_sessions : List TestSessionRow
  guest_sessions : List GuestSessionRow
  test_results : List TestResultRow
  users : List UserRow
  test_texts : List TestTextRow := []
  refresh_tokens : List RefreshTokenRow := []
  deriving DecidableEq, Repr

/-- The value `result.insertId` of an `INSERT` into a table whose rows have the given ids. -/
def insertId (ids : List Nat) : Nat :=
  ids.foldl max 0 + 1

/-- JavaScript truthiness of a nullable string (`null` and `''` are falsy). -/
def truthyStr : Option String → Bool
  | some x => x != ""
  | none => false

/-- JavaScript truthiness of a nullable numeric id (`null` and `0` are falsy). -/
def truthyId : Option Nat → Bool
  | some n => n != 0
  | none => false

/-! ## models/testSessionModel.js -/

/-- The argument object of `createTestSession`. -/
structure SessionData where
  userId : Option Nat
  guestSessionId : Option Nat
  testTextId : Nat
  durationSeconds : Int
  ipAddress : Option String
  userAgent : Option String
  deriving DecidableEq, Repr

/-- The object `createTestSession` returns. -/
structure IssuedSession where
  id : Nat
  sessionToken : String
  userId : Option Nat
  guestSessionId : Option Nat
  testTextId : Nat
  durationSeconds : Int
  ipAddress : Option String
  expiresAt : Int
  issuedAt : Int
  deriving DecidableEq, Repr

/-- The expression `parseInt(process.env.TEST_SESSION_TTL_SECONDS) || 600`: the
argument is the result of `parseInt`, `none` standing for `NaN`. -/
def ttlSeconds : Option Int → Int
  | none => 600
  | some n => if n = 0 then 600 else n

/-- The function `createTestSession`: `sessionToken` is the value
`generateTestSessionToken()` produced, `ttlEnv` the parsed TTL setting.  The clock is
read twice: `now` is the `Date.now()` that enters `expiresAt`, before the `INSERT`
is awaited, `issued` is the `new Date()` of the returned `issuedAt`, after it. -/
def createTestSession (tu : TokenUtils) (s : Store) (now issued : Int) (ttlEnv : Option Int)
    (sessionToken : String) (d : SessionData) : Store × IssuedSession :=
  let tokenHash := tu.hashTestSessionToken sessionToken
  let userAgentHash := if truthyStr d.userAgent then d.userAgent.map tu.hashString else none
  let expiresAt := now + ttlSeconds ttlEnv * 1000
  let newId := insertId (s.test_sessions.map (·.id))
  let row : TestSessionRow :=
    { id := newId, user_id := d.userId, guest_session_id := d.guestSessionId,
      test_text_id := d.testTextId, duration_seconds := d.durationSeconds,
      token_hash := tokenHash, ip_address := d.ipAddress, user_agent_hash := userAgentHash,
      expires_at := expiresAt, is_used := false, used_at := none }
  ({ s with test_sessions := s.test_sessions ++ [row] },
   { id := newId, sessionToken := sessionToken, userId := d.userId,
     guestSessionId := d.guestSessionId, testTextId := d.testTextId,
     durationSeconds := d.durationSeconds, ipAddress := d.ipAddress,
     expiresAt := expiresAt, issuedAt := issued })

/-- The object `consumeTestSession` returns on success. -/
structure SessionContext where
  id : Nat
  userId : Option Nat
  guestSessionId : Option Nat
  testTextId : Nat
  durationSeconds : Int
  securityCheck : Bool
  deriving DecidableEq, Repr

/-- A `logger.warn` entry written by `consumeTestSession`. -/
inductive Warning where
  | ipMismatch (sessionId : Nat) (expectedIp actualIp : String)
  | userAgentMismatch (sessionId : Nat) (expectedHash actualHash : String)
  deriving DecidableEq, Repr

/-- What a call of `consumeTestSession` leaves behind: the store, the returned
value (`none` is `null`) and the warnings it logged. -/
structure ConsumeOutcome where
  store : Store
  result : Option SessionContext
  warnings : List Warning
  deriving DecidableEq, Repr

/-- The `WHERE` clause of `verifyQuery`:
`token_hash = ? AND is_used = FALSE AND expires_at > NOW()`. -/
def verifyWhere (tokenHash : String) (now : Int) (r : TestSessionRow) : Bool :=
  r.token_hash == tokenHash && !r.is_used && decide (r.expires_at > now)

/-- The storage step `executeQuery(verifyQuery, [tokenHash])`. -/
def verifyQuery (tu : TokenUtils) (s : Store) (now : Int) (sessionToken : String) :
    List TestSessionRow :=
  s.test_sessions.filter (verifyWhere (tu.hashTestSessionToken sessionToken) now)

/-- The storage step `executeQuery(updateQuery, [session.id])`:
`UPDATE test_sessions SET is_used = TRUE, used_at = CURRENT_TIMESTAMP WHERE id = ?`. -/
def updateQuery (s : Store) (now : Int) (sessionId : Nat) : Store :=
  { s with test_sessions := s.test_sessions.map fun r =>
      if r.id = sessionId then { r with is_used := true, used_at := some now } else r }

/-- The two soft checks of `consumeTestSession`, as the list of warnings they log. -/
def fingerprintWarnings (tu : TokenUtils) (session : TestSessionRow)
    (ipAddress userAgent : Option String) : List Warning :=
  (match ipAddress, session.ip_address with
    | some ip, some expected =>
      if ip != "" && expected != "" && ip != expected then
        [Warning.ipMismatch session.id expected ip] else []
    | _, _ => []) ++
  (match userAgent, session.user_agent_hash with
    | some ua, some expected =>
      if ua != "" && expected != "" && tu.hashString ua != expected then
        [Warning.userAgentMismatch session.id expected (tu.hashString ua)] else []
    | _, _ => [])

/-- The context object built from the verified row. -/
def contextOf (session : TestSessionRow) : SessionContext :=
  { id := session.id, userId := session.user_id, guestSessionId := session.guest_session_id,
    testTextId := session.test_text_id, durationSeconds := session.duration_seconds,
    securityCheck := true }

/-- The function `consumeTestSession`. -/
def consumeTestSession (tu : TokenUtils) (s : Store) (now : Int) (sessionToken : String)
    (ipAddress userAgent : Option String) : ConsumeOutcome :=
  match verifyQuery tu s now sessionToken with
  | [] => { store := s, result := none, warnings := [] }
  | session :: _ =>
    { store := updateQuery s now session.id,
      result := some (contextOf session),
      warnings := fingerprintWarnings tu session ipAddress userAgent }

/-- The function `cleanupExpiredSessions`:
`UPDATE test_sessions SET is_used = TRUE WHERE expires_at <= NOW() AND is_used = FALSE`,
with `affectedRows`. -/
def cleanupExpiredSessions (s : Store) (now : Int) : Store × Nat :=
  ({ s with test_sessions := s.test_sessions.map fun r =>
      if decide (r.expires_at ≤ now) && !r.is_used then { r with is_used := true } else r },
   s.test_sessions.countP fun r => decide (r.expires_at ≤ now) && !r.is_used)

/-- Seven days, in milliseconds. -/
def sevenDaysMs : Int := 7 * 24 * 60 * 60 * 1000

/-- The function `deleteOldSessions`:
`DELETE FROM test_sessions WHERE expires_at < DATE_SUB(NOW(), INTERVAL 7 DAY)`. -/
def deleteOldSessions (s : Store) (now : Int) : Store × Nat :=
  ({ s with test_sessions := s.test_sessions.filter fun r =>
      !decide (r.expires_at < now - sevenDaysMs) },
   s.test_sessions.countP fun r => decide (r.expires_at < now - sevenDaysMs))

/-- Where a running call of `consumeTestSession` stands between its two storage steps. -/
inductive ConsumeCall where
  | start
  | verified (session : TestSessionRow)
  | returned (result : Option SessionContext)
  deriving DecidableEq, Repr

/-- One storage step of a running `consumeTestSession(sessionToken)` call: from
`start` the `SELECT` of `verifyQuery`, from `verified` the `UPDATE` of `updateQuery`
followed by the return. -/
def consumeStep (tu : TokenUtils) (now : Int) (sessionToken : String) (s : Store) :
    ConsumeCall → Store × ConsumeCall
  | .start =>
    match verifyQuery tu s now sessionToken with
    | [] => (s, .returned none)
    | session :: _ => (s, .verified session)
  | .verified session => (updateQuery s now session.id, .returned (some (contextOf session)))
  | .returned r => (s, .returned r)

/-- Two calls of `consumeTestSession` with the same token running against one store. -/
structure TwoCalls where
  store : Store
  first : ConsumeCall
  second : ConsumeCall
  deriving DecidableEq, Repr

/-- Runs a schedule: `false` lets the first call take its next storage step,
`true` the second one. -/
def runSchedule (tu : TokenUtils) (now : Int) (sessionToken : String) :
    List Bool → TwoCalls → TwoCalls
  | [], c => c
  | false :: rest, c =>
    let r := consumeStep tu now sessionToken c.store c.first
    runSchedule tu now sessionToken rest { c with store := r.1, first := r.2 }
  | true :: rest, c =>
    let r := consumeStep tu now sessionToken c.store c.second
    runSchedule tu now sessionToken rest { c with store := r.1, second := r.2 }

/-! ## models/userModel.js -/

/-- The function `getUserById`: `SELECT ... WHERE id = ? AND is_active = TRUE`,
then `users[0] || null`. -/
def getUserById (s : Store) (userId : Nat) : Option UserRow :=
  (s.users.filter fun u => u.id == userId && u.is_active).head?

/-- The `SET` list of the `UPDATE` in `updateUserStats`, assignment by assignment
from left to right (MySQL evaluates each right-hand side on the row as the
earlier assignments left it). -/
def statsAssignments (wpm : ℚ) (now : Int) (u : UserRow) : UserRow :=
  let u1 := { u with best_wpm := max u.best_wpm wpm }
  let u2 := { u1 with avg_wpm := (u1.avg_wpm * u1.total_tests + wpm) / (u1.total_tests + 1) }
  let u3 := { u2 with total_tests := u2.total_tests + 1 }
  { u3 with updated_at := now }

/-- The function `updateUserStats`: the `UPDATE ... WHERE id = ? AND is_active = TRUE`
followed by `getUserById(userId)`. -/
def updateUserStats (s : Store) (now : Int) (userId : Nat) (wpm _accuracy : ℚ) :
    Store × Option UserRow :=
  let s' := { s with users := s.users.map fun u =>
    if u.id == userId && u.is_active then statsAssignments wpm now u else u }
  (s', getUserById s' userId)

/-- The stats row after a run of updates, as a fold over the submitted values. -/
def foldStats (now : Int) (ws : List ℚ) (u : UserRow) : UserRow :=
  ws.foldl (fun u w => statsAssignments w now u) u

/-- The function `deactivateUser`. -/
def deactivateUser (s : Store) (now : Int) (userId : Nat) : Store × Bool :=
  ({ s with users := s.users.map fun u =>
      if u.id = userId then { u with is_active := false, updated_at := now } else u }, true)

/-- Applies `updateUserStats(userId, w, accuracy)` for each `w` of the list, in order. -/
def updateUserStatsAll (s : Store) (now : Int) (userId : Nat) (accuracy : ℚ) :
    List ℚ → Store
  | [] => s
  | w :: ws => updateUserStatsAll (updateUserStats s now userId w accuracy).1 now userId accuracy ws

/-! ## models/testResultModel.js -/

/-- The argument object of `createTestResult`. -/
structure ResultData where
  userId : Option Nat
  guestSessionId : Option Nat
  testSessionId : Nat
  wpm : ℚ
  accuracy : ℚ
  correctChars : Int
  incorrectChars : Int
  totalChars : Int
  testDurationSeconds : Int
  textSnippet : Option String
  rawWpm : Option ℚ
  deriving DecidableEq, Repr

/-- The function `createTestResult`: the `INSERT INTO test_results`; the returned
object carries the fields of the inserted row. -/
def createTestResult (s : Store) (now : Int) (d : ResultData) : Store × TestResultRow :=
  let row : TestResultRow :=
    { id := insertId (s.test_results.map (·.id)), user_id := d.userId,
      guest_session_id := d.guestSessionId, test_session_id := d.testSessionId,
      wpm := d.wpm, accuracy := d.accuracy, correct_chars := d.correctChars,
      incorrect_chars := d.incorrectChars, total_chars := d.totalChars,
      test_duration_seconds := d.testDurationSeconds, text_snippet := d.textSnippet,
      raw_wpm := d.rawWpm.getD 0, created_at := now }
  ({ s with test_results := s.test_results ++ [row] }, row)

/-! ## models/guestSessionModel.js -/

/-- The function `getGuestSessionById`:
`SELECT ... WHERE guest_id = ? AND is_active = TRUE`, then `sessions[0] || null`. -/
def getGuestSessionById (s : Store) (guestId : String) : Option GuestSessionRow :=
  (s.guest_sessions.filter fun g => g.guest_id == guestId && g.is_active).head?

/-- The function `deactivateGuestSession`:
`UPDATE guest_sessions SET is_active = FALSE WHERE guest_id = ?`. -/
def deactivateGuestSession (s : Store) (guestId : String) : Store × Bool :=
  ({ s with guest_sessions := s.guest_sessions.map fun g =>
      if g.guest_id = guestId then { g with is_active := false } else g }, true)

/-- The object `claimGuestResults` returns. -/
structure ClaimResult where
  claimedResults : Nat
  userId : Nat
  guestId : String
  deriving DecidableEq, Repr

/-- The function `claimGuestResults`; `Except.error msg` is `throw new Error(msg)`.
Every row the `UPDATE` matches has a non-null `guest_session_id` and gets `NULL`, so
`affectedRows` is the number of matched rows under either MySQL counting mode. -/
def claimGuestResults (s : Store) (guestId : String) (userId : Nat) :
    Store × Except String ClaimResult :=
  match getGuestSessionById s guestId with
  | none => (s, .error "Guest session not found")
  | some guestSession =>
    let s1 := { s with test_results := s.test_results.map fun r =>
      if r.guest_session_id = some guestSession.id then
        { r with user_id := some userId, guest_session_id := none } else r }
    let affectedRows := s.test_results.countP fun r => r.guest_session_id == some guestSession.id
    let s2 := (deactivateGuestSession s1 guestId).1
    (s2, .ok { claimedResults := affectedRows, userId := userId, guestId := guestId })

/-! ## controllers/testController.js -/

/-- The fields of `req.body` that `submitResult` destructures, for a body whose
metrics and counters are JSON numbers, as the client's `finishTest` sends them;
bodies that carry them as strings are outside this model. -/
structure SubmitBody where
  sessionToken : String
  wpm : ℚ
  rawWpm : ℚ
  accuracy : ℚ
  correctChars : Int
  incorrectChars : Int
  totalChars : Int
  durationSeconds : Int
  textSnippet : Option String
  deriving DecidableEq, Repr

/-- The request as `submitResult` sees it: `req.user?.id`, `req.guestSession?.id`,
`req.ip`, `req.get('User-Agent')` and the body. -/
structure SubmitRequest where
  user : Option Nat
  guestSession : Option Nat
  ip : Option String
  userAgent : Option String
  body : SubmitBody
  deriving DecidableEq, Repr

/-- What a handler hands to `next(error)`: an error built by `createError`, the
`TypeError` of reading a property of `null`, or a plain `new Error(message)`. -/
inductive HandlerError where
  | http (message : String) (statusCode : Nat)
  | typeError
  | failure (message : String)
  deriving DecidableEq, Repr

/-- The JSON payload of the 201 response of `submitResult`. -/
structure SubmitResponse where
  status : Nat
  result : TestResultRow
  isNewRecord : Bool
  isGuest : Bool
  deriving DecidableEq, Repr

/-- The object `resultData` that `submitResult` builds for `createTestResult`. -/
def resultDataOf (sessionData : SessionContext) (body : SubmitBody) : ResultData :=
  { userId := sessionData.userId, guestSessionId := sessionData.guestSessionId,
    testSessionId := sessionData.id, wpm := body.wpm, rawWpm := some body.rawWpm,
    accuracy := body.accuracy, correctChars := body.correctChars,
    incorrectChars := body.incorrectChars, totalChars := body.totalChars,
    testDurationSeconds := body.durationSeconds, textSnippet := body.textSnippet }

/-- The 201 response `submitResult` sends for the inserted result. -/
def respondCreated (sessionData : SessionContext) (result : TestResultRow)
    (isNewRecord : Bool) : SubmitResponse :=
  { status := 201, result := result, isNewRecord := isNewRecord,
    isGuest := truthyId sessionData.guestSessionId }

/-- The handler `submitResult`: the store it leaves and either the error passed to
`next` or the response. -/
def submitResult (tu : TokenUtils) (s : Store) (now : Int) (req : SubmitRequest) :
    Store × Except HandlerError SubmitResponse :=
  let consumed := consumeTestSession tu s now req.body.sessionToken req.ip req.userAgent
  match consumed.result with
  | none => (consumed.store, .error (.http "Invalid or expired session token" 400))
  | some sessionData =>
    if sessionData.durationSeconds ≠ req.body.durationSeconds then
      (consumed.store, .error (.http "Duration mismatch with session" 400))
    else
      let created := createTestResult consumed.store now (resultDataOf sessionData req.body)
      match sessionData.userId with
      | some userId =>
        if userId ≠ 0 then
          let updated := updateUserStats created.1 now userId req.body.wpm req.body.accuracy
          (updated.1,
            match updated.2 with
            | none => .error .typeError
            | some user =>
              .ok (respondCreated sessionData created.2 (decide (req.body.wpm > user.best_wpm))))
        else (created.1, .ok (respondCreated sessionData created.2 false))
      | none => (created.1, .ok (respondCreated sessionData created.2 false))

/-! ## models/testTextModel.js and the handler `getText` -/

/-- The function `getRandomText`: the active texts with the given language and
difficulty, `ORDER BY RAND() LIMIT 1`; `rand` is the draw. -/
def getRandomText (s : Store) (rand : Nat) (language difficulty : String) :
    Option TestTextRow :=
  let texts := s.test_texts.filter fun x =>
    x.language == language && x.difficulty == difficulty && x.is_active
  texts[rand % texts.length]?

/-- The query string of `GET /texts`, after `validateTextRequest`. -/
structure TextQuery where
  language : Option String
  difficulty : Option String
  duration : Option Int
  deriving DecidableEq, Repr

/-- The request as `getText` sees it. -/
structure TextRequest where
  user : Option Nat
  guestSession : Option Nat
  ip : Option String
  userAgent : Option String
  query : TextQuery
  deriving DecidableEq, Repr

/-- The `data` object of the response of `getText`. -/
structure TextResponse where
  text : TestTextRow
  sessionToken : String
  durationSeconds : Int
  expiresAt : Int
  deriving DecidableEq, Repr

/-- The expression `x?.id || null` for a nullable id. -/
def idOrNull (x : Option Nat) : Option Nat :=
  if truthyId x then x else none

/-- The handler `getText`; `rand` is the draw of `getRandomText`, `sessionToken` the
token `createTestSession` generates, `now` and `issued` its two clock readings. -/
def getText (tu : TokenUtils) (s : Store) (now issued : Int) (ttlEnv : Option Int) (rand : Nat)
    (sessionToken : String) (req : TextRequest) : Store × Except HandlerError TextResponse :=
  let language := req.query.language.getD "en"
  let difficulty := req.query.difficulty.getD "medium"
  let duration := req.query.duration.getD 60
  match getRandomText s rand language difficulty with
  | none => (s, .error (.http "No text available for the specified criteria" 404))
  | some text =>
    let sessionData : SessionData :=
      { userId := idOrNull req.user, guestSessionId := idOrNull req.guestSession,
        testTextId := text.id, durationSeconds := duration, ipAddress := req.ip,
        userAgent := req.userAgent }
    let testSession := createTestSession tu s now issued ttlEnv sessionToken sessionData
    (testSession.1, .ok { text := text, sessionToken := testSession.2.sessionToken,
                          durationSeconds := testSession.2.durationSeconds,
                          expiresAt := testSession.2.expiresAt })

/-! ## middleware/validationMiddleware.js -/

/-- The checks of the chain `validateTestSubmission` on a body of JSON numbers, as the
messages of those that fail, in the order of the chain.  (The chain validates
without converting, so on string counters its last check compares concatenated
strings; such bodies are outside this model.) -/
def validateTestSubmissionErrors (b : SubmitBody) : List String :=
  (if b.sessionToken = "" then ["Session token is required"] else []) ++
  (if b.sessionToken.length < 32 ∨ b.sessionToken.length > 128 then
    ["Invalid session token format"] else []) ++
  (if b.wpm < 0 ∨ b.wpm > 300 then ["WPM must be between 0 and 300"] else []) ++
  (if b.rawWpm < 0 ∨ b.rawWpm > 300 then ["Raw WPM must be between 0 and 300"] else []) ++
  (if b.accuracy < 0 ∨ b.accuracy > 100 then ["Accuracy must be between 0 and 100"] else []) ++
  (if b.correctChars < 0 then ["Correct characters must be a non-negative integer"] else []) ++
  (if b.incorrectChars < 0 then
    ["Incorrect characters must be a non-negative integer"] else []) ++
  (if b.totalChars < 1 then ["Total characters must be a positive integer"] else []) ++
  (if b.durationSeconds < 15 ∨ b.durationSeconds > 120 then
    ["Duration must be between 15 and 120 seconds"] else []) ++
  (match b.textSnippet with
    | some x => if x.length > 100 then ["Text snippet must be 100 characters or less"] else []
    | none => []) ++
  (if b.correctChars + b.incorrectChars ≠ b.totalChars then
    ["Total characters must equal correct characters plus incorrect characters"] else [])

/-- The chain `validateTestSubmission` with `handleValidationErrors`: passes, or throws
the 400 error that joins the messages. -/
def validateTestSubmission (b : SubmitBody) : Except HandlerError Unit :=
  if validateTestSubmissionErrors b = [] then .ok ()
  else .error (.http (", ".intercalate (validateTestSubmissionErrors b)) 400)

/-! ## client/src/utils/typingUtils.js -/

/-- The function `calculateWPM`, on exact rationals. -/
def calculateWPM (correctChars timeInSeconds : ℚ) : ℚ :=
  if timeInSeconds ≤ 0 then 0
  else
    let words := correctChars / 5
    let minutes := timeInSeconds / 60
    words / minutes

/-- The function `calculateAccuracy`, on exact rationals. -/
def calculateAccuracy (correctChars incorrectChars : ℚ) : ℚ :=
  let totalChars := correctChars + incorrectChars
  if totalChars = 0 then 100 else (correctChars / totalChars) * 100

/-- The function `calculateRawWPM`, on exact rationals. -/
def calculateRawWPM (totalChars timeInSeconds : ℚ) : ℚ :=
  if timeInSeconds ≤ 0 then 0
  else
    let words := totalChars / 5
    let minutes := timeInSeconds / 60
    words / minutes

/-- The fields of its argument that `validateTestResult` reads.  A field is a
number, or `none` when the record has no such field (`undefined`) or holds `NaN`;
records with string-valued fields are outside this model. -/
structure ResultRecord where
  wpm : Option ℚ
  accuracy : Option ℚ
  correctChars : Option ℚ
  incorrectChars : Option ℚ
  totalChars : Option ℚ
  durationSeconds : Option ℚ
  deriving DecidableEq, Repr

/-- The record whose six fields are the given numbers. -/
def numericRecord (wpm accuracy correctChars incorrectChars totalChars durationSeconds : ℚ) :
    ResultRecord :=
  { wpm := some wpm, accuracy := some accuracy, correctChars := some correctChars,
    incorrectChars := some incorrectChars, totalChars := some totalChars,
    durationSeconds := some durationSeconds }

/-- JavaScript `field < bound` for a number `bound`: false for `undefined` and `NaN`. -/
def fieldLt (field : Option ℚ) (bound : ℚ) : Bool :=
  match field with
  | some x => decide (x < bound)
  | none => false

/-- JavaScript `field > bound` for a number `bound`: false for `undefined` and `NaN`. -/
def fieldGt (field : Option ℚ) (bound : ℚ) : Bool :=
  match field with
  | some x => decide (x > bound)
  | none => false

/-- JavaScript `a + b` on fields: the sum of two numbers, `NaN` otherwise. -/
def fieldSum (a b : Option ℚ) : Option ℚ :=
  match a, b with
  | some x, some y => some (x + y)
  | _, _ => none

/-- JavaScript `field !== sum` where `sum` is a number or `NaN`: false only for two
equal numbers. -/
def fieldStrictNe (field sum : Option ℚ) : Bool :=
  match field, sum with
  | some x, some y => decide (x ≠ y)
  | _, _ => true

/-- The object `validateTestResult` returns. -/
structure ResultValidation where
  isValid : Bool
  errors : List String
  deriving DecidableEq, Repr

/-- The function `validateTestResult`: each failed check pushes its message. -/
def validateTestResult (result : ResultRecord) : ResultValidation :=
  let errors : List String :=
    (if fieldLt result.wpm 0 || fieldGt result.wpm 300 then
      ["WPM must be between 0 and 300"] else []) ++
    (if fieldLt result.accuracy 0 || fieldGt result.accuracy 100 then
      ["Accuracy must be between 0 and 100"] else []) ++
    (if fieldLt result.correctChars 0 then ["Correct characters must be non-negative"] else []) ++
    (if fieldLt result.incorrectChars 0 then
      ["Incorrect characters must be non-negative"] else []) ++
    (if fieldStrictNe result.totalChars (fieldSum result.correctChars result.incorrectChars) then
      ["Total characters must equal correct plus incorrect characters"] else []) ++
    (if fieldLt result.durationSeconds 15 || fieldGt result.durationSeconds 120 then
      ["Duration must be between 15 and 120 seconds"] else [])
  { isValid := errors.length == 0, errors := errors }

/-- JavaScript `Math.round` on an exact rational: the nearest integer, halves upwards. -/
def mathRound (x : ℚ) : Int :=
  Rat.floor (x + 1 / 2)

/-! ## client/src/hooks/useTypingTest.js -/

/-- The values of the state variable `testState`. -/
inductive TestState where
  | idle
  | loading
  | active
  | finished
  deriving DecidableEq, Repr

/-- The object `testResults` that `finishTest` stores and submits. -/
structure TestResults where
  wpm : Int
  rawWpm : Int
  accuracy : ℚ
  correctChars : Nat
  incorrectChars : Nat
  totalChars : Nat
  durationSeconds : Int
  textSnippet : String
  deriving DecidableEq, Repr

/-- The state variables of the hook `useTypingTest`; a string is the list of its
characters, `errors` is the JavaScript `Set` of error indices. -/
structure TypingTest where
  testState : TestState
  testText : String
  sessionToken : String
  duration : ℚ
  timeLeft : ℚ
  userInput : String
  currentIndex : Nat
  errors : Finset ℕ
  startTime : Option Int
  results : Option TestResults
  deriving DecidableEq

/-- The local `actualDuration` of `finishTest`:
`startTime ? (endTime - startTime) / 1000 : duration`. -/
def actualDuration (st : TypingTest) (endTime : Int) : ℚ :=
  match st.startTime with
  | some t => if t ≠ 0 then ((endTime - t : Int) : ℚ) / 1000 else st.duration
  | none => st.duration

/-- The local `correctChars` of `finishTest`:
`userInput.split('').filter((char, index) => char === testText[index]).length`. -/
def countCorrect (userInput testText : String) : Nat :=
  (userInput.toList.enum.filter fun p => testText.toList[p.1]? == some p.2).length

/-- The local `wpm` of `finishTest`, before rounding. -/
def finishWpm (st : TypingTest) (endTime : Int) : ℚ :=
  calculateWPM (countCorrect st.userInput st.testText) (actualDuration st endTime)

/-- The local `rawWpm` of `finishTest`, before rounding: the source calls
`calculateWPM(totalChars, actualDuration)` with `totalChars = userInput.length`. -/
def finishRawWpm (st : TypingTest) (endTime : Int) : ℚ :=
  calculateWPM st.userInput.length (actualDuration st endTime)

/-- The local `accuracy` of `finishTest`, before rounding. -/
def finishAccuracy (st : TypingTest) : ℚ :=
  calculateAccuracy (countCorrect st.userInput st.testText) st.errors.card

/-- The function `finishTest`, up to the submission: nothing happens unless the test
is active; otherwise the state becomes `finished` and holds the rounded results. -/
def finishTest (st : TypingTest) (endTime : Int) : TypingTest :=
  if st.testState ≠ .active then st
  else
    let testResults : TestResults :=
      { wpm := mathRound (finishWpm st endTime),
        rawWpm := mathRound (finishRawWpm st endTime),
        accuracy := (mathRound (finishAccuracy st * 100) : ℚ) / 100,
        correctChars := countCorrect st.userInput st.testText,
        incorrectChars := st.errors.card,
        totalChars := st.userInput.length,
        durationSeconds := mathRound (actualDuration st endTime),
        textSnippet := String.mk (st.testText.toList.take 50) ++
          (if st.testText.length > 50 then "..." else "") }
    { st with testState := .finished, results := some testResults }

/-- The loop of `handleInput` over the indices of the new input: an index whose
character differs from the text's is added to the set, an index whose character
agrees is deleted from it. -/
def trackErrors (newInput testText : String) (errors : Finset ℕ) : Finset ℕ :=
  (List.range newInput.length).foldl
    (fun newErrors i =>
      if newInput.toList[i]? ≠ testText.toList[i]? then insert i newErrors
      else newErrors.erase i)
    errors

/-- The function `handleInput`; `now` is the value of `Date.now()`. -/
def handleInput (st : TypingTest) (value : String) (now : Int) : TypingTest :=
  if st.testState ≠ .active then st
  else
    { st with
      userInput := value,
      currentIndex := value.length,
      errors := trackErrors value st.testText st.errors,
      startTime :=
        if (st.startTime = none ∨ st.startTime = some 0) ∧ value.length = 1 then some now
        else st.startTime }

/-- The body `{ sessionToken, ...testResults }` that `finishTest` submits. -/
def submissionOf (sessionToken : String) (r : TestResults) : SubmitBody :=
  { sessionToken := sessionToken, wpm := r.wpm, rawWpm := r.rawWpm, accuracy := r.accuracy,
    correctChars := r.correctChars, incorrectChars := r.incorrectChars,
    totalChars := r.totalChars, durationSeconds := r.durationSeconds,
    textSnippet := some r.textSnippet }

/-! ## utils/passwordUtils.js, the account functions of models/userModel.js,
models/refreshTokenModel.js -/

/-- The library calls behind the auth flow: password hashing and verification
(argon2 or bcrypt) and the signing of the two JWTs (jose). -/
structure AuthUtils where
  hash : String → String
  verify : String → String → Bool
  signAccessToken : Nat → String → String
  signRefreshToken : Nat → String

/-- The function `hashPassword`: rejects an empty password, else hashes. -/
def hashPassword (au : AuthUtils) (password : String) : Except HandlerError String :=
  if password = "" then .error (.failure "Password must be a non-empty string")
  else .ok (au.hash password)

/-- The function `verifyPassword(password, hash)`. -/
def verifyPassword (au : AuthUtils) (password hash : String) : Bool :=
  if password = "" ∨ hash = "" then false else au.verify password hash

/-- The characters of the class `[!@#$%^&*()_+\-=\[\]{};':"\\|,.<>\/?]`. -/
def specialCharacters : List Char :=
  ['!', '@', '#', '$', '%', '^', '&', '*', '(', ')', '_', '+', '-', '=', '[', ']',
   Char.ofNat 123, Char.ofNat 125, ';', Char.ofNat 39, ':', Char.ofNat 34, Char.ofNat 92,
   '|', ',', '.', '<', '>', '/', '?']

/-- Whether `needle` occurs in `hay` as a contiguous run. -/
def occursIn (needle hay : List Char) : Bool :=
  hay.tails.any fun rest => needle.isPrefixOf rest

/-- The loop over `commonPatterns`: `/^123/i`, `/password/i`, `/qwerty/i`, `/admin/i`,
`/letmein/i`, `/welcome/i`. -/
def hasCommonPattern (password : String) : Bool :=
  "123".toList.isPrefixOf password.toList ||
  ["password", "qwerty", "admin", "letmein", "welcome"].any fun w =>
    occursIn w.toList (password.toList.map Char.toLower)

/-- The function `validatePasswordStrength`. -/
def validatePasswordStrength (password : String) : ResultValidation :=
  if password = "" then { isValid := false, errors := ["Password is required"] }
  else
    let errors : List String :=
      (if password.length < 8 then ["Password must be at least 8 characters long"] else []) ++
      (if password.length > 128 then
        ["Password must be less than 128 characters long"] else []) ++
      (if !password.toList.any Char.isLower then
        ["Password must contain at least one lowercase letter"] else []) ++
      (if !password.toList.any Char.isUpper then
        ["Password must contain at least one uppercase letter"] else []) ++
      (if !password.toList.any Char.isDigit then
        ["Password must contain at least one number"] else []) ++
      (if !password.toList.any (fun c => specialCharacters.contains c) then
        ["Password must contain at least one special character"] else []) ++
      (if hasCommonPattern password then
        ["Password contains common patterns that are not allowed"] else [])
    { isValid := errors.length == 0, errors := errors }

/-- The function `checkUsernameExists`. -/
def checkUsernameExists (s : Store) (username : String) : Bool :=
  (s.users.filter fun u => u.username == username && u.is_active).length > 0

/-- The function `checkEmailExists`. -/
def checkEmailExists (s : Store) (email : String) : Bool :=
  (s.users.filter fun u => u.email == email && u.is_active).length > 0

/-- The argument object of `createUser`. -/
structure UserData where
  username : String
  email : String
  password : String
  deriving DecidableEq, Repr

/-- The function `createUser`: hashes the password, inserts the row (the other
columns take their defaults: zero stats, active, timestamps `now`) and reads it
back with `getUserById`. -/
def createUser (au : AuthUtils) (s : Store) (now : Int) (d : UserData) :
    Store × Except HandlerError (Option UserRow) :=
  match hashPassword au d.password with
  | .error e => (s, .error e)
  | .ok passwordHash =>
    let row : UserRow :=
      { id := insertId (s.users.map (·.id)), username := d.username, best_wpm := 0,
        avg_wpm := 0, total_tests := 0, updated_at := now, is_active := true,
        email := d.email, password_hash := passwordHash, avatar_url := none,
        created_at := now }
    let s' := { s with users := s.users ++ [row] }
    (s', .ok (getUserById s' row.id))

/-- The function `getUserByUsernameOrEmail`. -/
def getUserByUsernameOrEmail (s : Store) (identifier : String) : Option UserRow :=
  (s.users.filter fun u =>
    (u.username == identifier || u.email == identifier) && u.is_active).head?

/-- The function `validateUserCredentials`; the returned user has no password hash. -/
def validateUserCredentials (au : AuthUtils) (s : Store) (identifier password : String) :
    Option UserRow :=
  match getUserByUsernameOrEmail s identifier with
  | none => none
  | some user =>
    if !verifyPassword au password user.password_hash then none
    else some { user with password_hash := "" }

/-- Seven days, the lifetime of a refresh token and of its cookie. -/
def refreshTokenTtlMs : Int := 7 * 24 * 60 * 60 * 1000

/-- The function `createRefreshToken`. -/
def createRefreshToken (tu : TokenUtils) (s : Store) (now : Int) (userId : Nat)
    (token : String) (deviceInfo ipAddress : Option String) : Store × RefreshTokenRow :=
  let row : RefreshTokenRow :=
    { id := insertId (s.refresh_tokens.map (·.id)), user_id := userId,
      token_hash := tu.hashString token, device_info := deviceInfo, ip_address := ipAddress,
      expires_at := now + refreshTokenTtlMs, is_revoked := false }
  ({ s with refresh_tokens := s.refresh_tokens ++ [row] }, row)

/-! ## controllers/authController.js -/

/-- The object `req.guestSession` that the middleware `getGuestSession` attaches. -/
structure GuestRef where
  id : Nat
  guestId : String
  deriving DecidableEq, Repr

/-- The request as `register` sees it. -/
structure RegisterRequest where
  username : String
  email : String
  password : String
  guestSession : Option GuestRef
  userAgent : Option String
  ip : Option String
  deriving DecidableEq, Repr

/-- The request as `login` sees it. -/
structure LoginRequest where
  username : String
  password : String
  guestSession : Option GuestRef
  userAgent : Option String
  ip : Option String
  deriving DecidableEq, Repr

/-- The `user` object of the auth responses. -/
structure PublicUser where
  id : Nat
  username : String
  email : String
  avatar_url : Option String
  best_wpm : ℚ
  avg_wpm : ℚ
  total_tests : Nat
  created_at : Int
  deriving DecidableEq, Repr

/-- What `register` and `login` send on success: status, message, the user, the
access token of the body and the refresh token of the cookie. -/
structure AuthResponse where
  status : Nat
  message : String
  user : PublicUser
  accessToken : String
  refreshToken : String
  deriving DecidableEq, Repr

/-- The fields of the user row that the auth responses expose. -/
def publicUser (user : UserRow) : PublicUser :=
  { id := user.id, username := user.username, email := user.email,
    avatar_url := user.avatar_url, best_wpm := user.best_wpm, avg_wpm := user.avg_wpm,
    total_tests := user.total_tests, created_at := user.created_at }

/-- The block `if (req.guestSession) { try { await claimGuestResults(...) } catch { warn } }`:
whatever `claimGuestResults` did to the store stays, its outcome is only logged. -/
def claimIfGuest (s : Store) (guestSession : Option GuestRef) (userId : Nat) : Store :=
  match guestSession with
  | some g => (claimGuestResults s g.guestId userId).1
  | none => s

/-- The common tail of `register` and `login`: claim the guest results, sign the
tokens, store the refresh token, respond. -/
def finishAuth (tu : TokenUtils) (au : AuthUtils) (s : Store) (now : Int) (user : UserRow)
    (guestSession : Option GuestRef) (userAgent ip : Option String) (status : Nat)
    (message : String) : Store × Except HandlerError AuthResponse :=
  let s1 := claimIfGuest s guestSession user.id
  let accessToken := au.signAccessToken user.id user.username
  let refreshToken := au.signRefreshToken user.id
  let s2 := (createRefreshToken tu s1 now user.id refreshToken userAgent ip).1
  (s2, .ok { status := status, message := message, user := publicUser user,
             accessToken := accessToken, refreshToken := refreshToken })

/-- The handler `register`. -/
def register (tu : TokenUtils) (au : AuthUtils) (s : Store) (now : Int)
    (req : RegisterRequest) : Store × Except HandlerError AuthResponse :=
  let passwordValidation := validatePasswordStrength req.password
  if !passwordValidation.isValid then
    (s, .error (.http (", ".intercalate passwordValidation.errors) 400))
  else if checkUsernameExists s req.username then
    (s, .error (.http "Username already taken" 409))
  else if checkEmailExists s req.email then
    (s, .error (.http "Email already registered" 409))
  else
    match createUser au s now
        { username := req.username, email := req.email, password := req.password } with
    | (s1, .error e) => (s1, .error e)
    | (s1, .ok none) => (s1, .error .typeError)
    | (s1, .ok (some user)) =>
      finishAuth tu au s1 now user req.guestSession req.userAgent req.ip 201
        "User registered successfully"

/-- The handler `login`. -/
def login (tu : TokenUtils) (au : AuthUtils) (s : Store) (now : Int) (req : LoginRequest) :
    Store × Except HandlerError AuthResponse :=
  match validateUserCredentials au s req.username req.password with
  | none => (s, .error (.http "Invalid username or password" 401))
  | some user =>
    finishAuth tu au s now user req.guestSession req.userAgent req.ip 200 "Login successful"

/-! ## Example data -/

/-- A stand-in for the hash helpers, used on concrete inputs only. -/
def demoUtils : TokenUtils :=
  { hashTestSessionToken := fun t => "sha:" ++ t, hashString := fun x => "sha:" ++ x }

/-- An unused session of user 7, for text 3 and 60 seconds, that expires at time 600000. -/
def demoSession : TestSessionRow :=
  { id := 1, user_id := some 7, guest_session_id := none, test_text_id := 3,
    duration_seconds := 60, token_hash := "sha:tok-a", ip_address := some "10.0.0.1",
    user_agent_hash := none, expires_at := 600000, is_used := false, used_at := none }

/-- The active user 7 of the examples: best 50, average 40 over 2 tests. -/
def demoUser : UserRow :=
  { id := 7, username := "ann", best_wpm := 50, avg_wpm := 40, total_tests := 2,
    updated_at := 0, is_active := true }

/-- The active user 8 of the examples, who has not taken a test yet. -/
def newUser : UserRow :=
  { id := 8, username := "bob", best_wpm := 0, avg_wpm := 0, total_tests := 0,
    updated_at := 0, is_active := true }

/-- A store with one live session, its owner and a second user. -/
def demoStore : Store :=
  { test_sessions := [demoSession], guest_sessions := [], test_results := [],
    users := [demoUser, newUser] }

/-- A submission for the example session: 60 wpm typed in the bound 60 seconds. -/
def demoRequest : SubmitRequest :=
  { user := some 7, guestSession := none, ip := some "10.0.0.1", userAgent := none,
    body := { sessionToken := "tok-a", wpm := 60, rawWpm := 62, accuracy := 97,
              correctChars := 300, incorrectChars := 10, totalChars := 310,
              durationSeconds := 60, textSnippet := none } }

/-- The result row the example submission inserts at time 1000. -/
def demoResult : TestResultRow :=
  { id := 1, user_id := some 7, guest_session_id := none, test_session_id := 1,
    wpm := 60, accuracy := 97, correct_chars := 300, incorrect_chars := 10,
    total_chars := 310, test_duration_seconds := 60, text_snippet := none,
    raw_wpm := 62, created_at := 1000 }

/-- A result row of the examples with the given id and owner. -/
def resultOf (id : Nat) (userId guestSessionId : Option Nat) : TestResultRow :=
  { demoResult with id := id, user_id := userId, guest_session_id := guestSessionId,
                    test_session_id := id + 10 }

/-- The active guest session 4 of the examples, with public id `g-1`. -/
def demoGuest : GuestSessionRow :=
  { id := 4, guest_id := "g-1", created_at := 0, last_seen_at := 0, is_active := true }

/-- A store with two guests: guest 4 owns results 1 and 4, guest 5 owns result 2,
user 7 owns result 3. -/
def guestStore : Store :=
  { test_sessions := [],
    guest_sessions := [demoGuest, { demoGuest with id := 5, guest_id := "g-2" }],
    test_results := [resultOf 1 none (some 4), resultOf 2 none (some 5),
                     resultOf 3 (some 7) none, resultOf 4 none (some 4)],
    users := [demoUser, newUser] }

/-- A running test: nine characters typed since time 1000, one of them wrong. -/
def demoTyping : TypingTest :=
  { testState := .active, testText := "hello world", sessionToken := "tok-a", duration := 60,
    timeLeft := 30, userInput := "hellp wor", currentIndex := 9, errors := {4},
    startTime := some 1000, results := none }

/-- The record of the scenario: 250 correct and 10 incorrect characters in 60 seconds. -/
def scenarioRecord : ResultRecord :=
  numericRecord 50 (9615 / 100) 250 10 260 60

/-- A well-formed session token of 32 characters. -/
def longToken : String := "0123456789abcdef0123456789abcdef"

/-- A store with one medium English text and one live 60-second session of guest 4
under `longToken`. -/
def textStore : Store :=
  { test_sessions := [{ demoSession with user_id := none, guest_session_id := some 4,
                                         token_hash := "sha:" ++ longToken }],
    guest_sessions := [demoGuest], test_results := [], users := [demoUser],
    test_texts := [{ id := 3, content := "the quick brown fox", language := "en",
                     difficulty := "medium", word_count := 4, is_active := true }] }

/-- A submission that declares 300 wpm at 100 % accuracy for one typed character. -/
def forgedRequest : SubmitRequest :=
  { user := none, guestSession := some 4, ip := none, userAgent := none,
    body := { sessionToken := longToken, wpm := 300, rawWpm := 300, accuracy := 100,
              correctChars := 1, incorrectChars := 0, totalChars := 1,
              durationSeconds := 60, textSnippet := none } }

/-- The row the forged submission inserts at time 1000. -/
def forgedResult : TestResultRow :=
  { id := 1, user_id := none, guest_session_id := some 4, test_session_id := 1,
    wpm := 300, accuracy := 100, correct_chars := 1, incorrect_chars := 0,
    total_chars := 1, test_duration_seconds := 60, text_snippet := none,
    raw_wpm := 300, created_at := 1000 }

/-- A `GET /texts` request without query parameters and with the given identity. -/
def textRequestOf (user guestSession : Option Nat) : TextRequest :=
  { user := user, guestSession := guestSession, ip := none, userAgent := none,
    query := { language := none, difficulty := none, duration := none } }

/-- Stand-ins for the password and JWT libraries, used on concrete inputs only. -/
def demoAuth : AuthUtils :=
  { hash := fun pw => "hash:" ++ pw, verify := fun pw h => h == "hash:" ++ pw,
    signAccessToken := fun _ name => "access:" ++ name,
    signRefreshToken := fun id => if id = 7 then "refresh:ann" else "refresh:other" }

/-- The guest store with a password for user 7. -/
def authStore : Store :=
  { guestStore with
    users := [{ demoUser with email := "ann@example.org", password_hash := "hash:Typing#2024" },
              newUser] }

/-- A login of user 7 that carries the given guest session. -/
def loginOf (guestSession : Option GuestRef) : LoginRequest :=
  { username := "ann", password := "Typing#2024", guestSession := guestSession,
    userAgent := none, ip := none }

/-- A registration of a new account that carries the given guest session. -/
def registerOf (guestSession : Option GuestRef) : RegisterRequest :=
  { username := "cleo", email := "cleo@example.org", password := "Typing#2024",
    guestSession := guestSession, userAgent := none, ip := none }

/-- The session data of the examples: text 9 for guest 4, 30 seconds. -/
def demoSessionData : SessionData :=
  { userId := none, guestSessionId := some 4, testTextId := 9, durationSeconds := 30,
    ipAddress := none, userAgent := none }

/-- An active test on the text `hello`, nothing typed yet. -/
def freshTyping : TypingTest :=
  { testState := .active, testText := "hello", sessionToken := longToken, duration := 60,
    timeLeft := 60, userInput := "", currentIndex := 0, errors := ∅, startTime := none,
    results := none }

/-- The test after `h` was typed, then a wrong `x`, then the `x` was deleted. -/
def backspacedTyping : TypingTest :=
  handleInput (handleInput (handleInput freshTyping "h" 1000) "hx" 1200) "h" 1400

/-- Store invariant: no two rows of `test_sessions` carry the same token hash
(tokens are fresh 256-bit random values stored under a collision-free hash). -/
def TokenHashesDistinct (s : Store) : Prop :=
  (s.test_sessions.map (·.token_hash)).Nodup

instance (s : Store) : Decidable (TokenHashesDistinct s) := by
  unfold TokenHashesDistinct; infer_instance

/-! ## Auxiliary lemmas on the session table -/

theorem verifyQuery_mem {tu : TokenUtils} {s : Store} {now : Int} {tok : String}
    {r : TestSessionRow} (h : r ∈ verifyQuery tu s now tok) :
    r ∈ s.test_sessions ∧ r.token_hash = tu.hashTestSessionToken tok ∧
      r.is_used = false ∧ now < r.expires_at := by
  simpa [verifyQuery, verifyWhere, List.mem_filter, and_assoc] using h

theorem tokenHash_injOn {s : Store} (hd : TokenHashesDistinct s) {r r' : TestSessionRow}
    (hr : r ∈ s.test_sessions) (hr' : r' ∈ s.test_sessions)
    (h : r.token_hash = r'.token_hash) : r = r' :=
  List.inj_on_of_nodup_map hd hr hr' h

/-! ## The token-hash invariant is kept by every operation of the session model -/

theorem tokenHashesDistinct_createTestSession (tu : TokenUtils) (s : Store) (now issued : Int)
    (ttlEnv : Option Int) (token : String) (d : SessionData) (hd : TokenHashesDistinct s)
    (hfresh : ∀ r ∈ s.test_sessions, r.token_hash ≠ tu.hashTestSessionToken token) :
    TokenHashesDistinct (createTestSession tu s now issued ttlEnv token d).1 := by
  unfold TokenHashesDistinct at hd ⊢
  simp only [createTestSession, List.map_append, List.map_cons, List.map_nil]
  refine List.Nodup.append hd (List.nodup_singleton _) ?_
  intro h hin hin2
  rw [List.mem_singleton] at hin2
  obtain ⟨r, hr, rfl⟩ := List.mem_map.mp hin
  exact hfresh r hr hin2

theorem tokenHashesDistinct_updateQuery (s : Store) (now : Int) (sessionId : Nat)
    (hd : TokenHashesDistinct s) : TokenHashesDistinct (updateQuery s now sessionId) := by
  unfold TokenHashesDistinct at hd ⊢
  have : (updateQuery s now sessionId).test_sessions.map (·.token_hash) =
      s.test_sessions.map (·.token_hash) := by
    simp only [updateQuery, List.map_map]
    apply List.map_congr_left
    intro r _
    simp only [Function.comp]
    split <;> rfl
  rw [this]; exact hd

theorem tokenHashesDistinct_consumeTestSession (tu : TokenUtils) (s : Store) (now : Int)
    (token : String) (ip ua : Option String) (hd : TokenHashesDistinct s) :
    TokenHashesDistinct (consumeTestSession tu s now token ip ua).store := by
  unfold consumeTestSession
  cases verifyQuery tu s now token with
  | nil => exact hd
  | cons session _ => exact tokenHashesDistinct_updateQuery s now session.id hd

theorem tokenHashesDistinct_cleanupExpiredSessions (s : Store) (now : Int)
    (hd : TokenHashesDistinct s) : TokenHashesDistinct (cleanupExpiredSessions s now).1 := by
  unfold TokenHashesDistinct at hd ⊢
  have : (cleanupExpiredSessions s now).1.test_sessions.map (·.token_hash) =
      s.test_sessions.map (·.token_hash) := by
    simp only [cleanupExpiredSessions, List.map_map]
    apply List.map_congr_left
    intro r _
    simp only [Function.comp]
    split <;> rfl
  rw [this]; exact hd

theorem tokenHashesDistinct_deleteOldSessions (s : Store) (now : Int)
    (hd : TokenHashesDistinct s) : TokenHashesDistinct (deleteOldSessions s now).1 := by
  unfold TokenHashesDistinct at hd ⊢
  exact hd.sublist ((List.filter_sublist _).map _)

/-! ## Session Consumer -/

/-- C1 (single use): on a store whose token hashes are pairwise distinct, once
`consumeTestSession(token)` has returned a session context, a further call with the
same token on the resulting store returns `null`, at every clock value (so at every
later one) and for every fingerprint. -/
theorem consumeTestSession_single_use (tu : TokenUtils) (s : Store) (now later : Int)
    (token : String) (ip ua ip2 ua2 : Option String) (ctx : SessionContext)
    (hd : TokenHashesDistinct s)
    (h : (consumeTestSession tu s now token ip ua).result = some ctx) :
    (consumeTestSession tu (consumeTestSession tu s now token ip ua).store
      later token ip2 ua2).result = none := by
  unfold consumeTestSession at h ⊢
  cases hv : verifyQuery tu s now token with
  | nil => simp [hv] at h
  | cons session rest =>
    have hmem : session ∈ verifyQuery tu s now token := by simp [hv]
    obtain ⟨hin, hhash, -, -⟩ := verifyQuery_mem hmem
    have hnil : verifyQuery tu (updateQuery s now session.id) later token = [] := by
      rw [verifyQuery, List.filter_eq_nil_iff]
      intro r' hr'
      simp only [updateQuery, List.mem_map] at hr'
      obtain ⟨r, hr, rfl⟩ := hr'
      by_cases hid : r.id = session.id
      · simp [hid, verifyWhere]
      · have hne : r ≠ session := fun e => hid (by rw [e])
        have hh : r.token_hash ≠ tu.hashTestSessionToken token := fun e =>
          hne (tokenHash_injOn hd hr hin (e.trans hhash.symm))
        simp [hid, verifyWhere, hh]
    simp [hnil]

/-- Witness of C1 on the example store. -/
theorem consumeTestSession_single_use_witness :
    TokenHashesDistinct demoStore ∧
    (consumeTestSession demoUtils demoStore 1000 "tok-a" none none).result =
      some (contextOf demoSession) ∧
    (consumeTestSession demoUtils
      (consumeTestSession demoUtils demoStore 1000 "tok-a" none none).store
      2000 "tok-a" none none).result = none :=
  ⟨by decide, by decide,
    consumeTestSession_single_use demoUtils demoStore 1000 2000 "tok-a" none none none none
      (contextOf demoSession) (by decide) (by decide)⟩

/-- Running the two storage steps of one call back to back is `consumeTestSession`. -/
theorem consumeStep_uninterrupted (tu : TokenUtils) (s : Store) (now : Int) (token : String)
    (ip ua : Option String) :
    consumeStep tu now token (consumeStep tu now token s .start).1
        (consumeStep tu now token s .start).2 =
      ((consumeTestSession tu s now token ip ua).store,
        .returned (consumeTestSession tu s now token ip ua).result) := by
  unfold consumeTestSession
  cases hv : verifyQuery tu s now token <;> simp [consumeStep, hv]

/-- C2 (exactly-once under concurrency) fails on the code: on the example store,
when both calls run their `SELECT` before either runs its `UPDATE`, both calls
return the session context; the `UPDATE` is keyed on the id alone, so applied to
a session that is already used it still rewrites the row (here `used_at`).  Run
one after the other, the same two calls give one context and one `null`. -/
theorem consume_interleaved_both_succeed :
    (runSchedule demoUtils 1000 "tok-a" [false, true, false, true]
        ⟨demoStore, .start, .start⟩).first = .returned (some (contextOf demoSession)) ∧
    (runSchedule demoUtils 1000 "tok-a" [false, true, false, true]
        ⟨demoStore, .start, .start⟩).second = .returned (some (contextOf demoSession)) ∧
    (updateQuery (updateQuery demoStore 1000 1) 2000 1).test_sessions =
      [{ demoSession with is_used := true, used_at := some 2000 }] ∧
    (runSchedule demoUtils 1000 "tok-a" [false, false, true, true]
        ⟨demoStore, .start, .start⟩).first = .returned (some (contextOf demoSession)) ∧
    (runSchedule demoUtils 1000 "tok-a" [false, false, true, true]
        ⟨demoStore, .start, .start⟩).second = .returned none := by
  decide

/-- C3 (round trip): when `createTestSession` stores a session under a token whose
hash no earlier row carries, a `consumeTestSession` of that token on the resulting
store, at a time before `expiresAt`, returns a context with the `testTextId`,
`durationSeconds`, `userId` and `guestSessionId` that were passed in. -/
theorem create_consume_roundtrip (tu : TokenUtils) (s : Store) (now issued later : Int)
    (ttlEnv : Option Int) (token : String) (d : SessionData) (ip ua : Option String)
    (hfresh : ∀ r ∈ s.test_sessions, r.token_hash ≠ tu.hashTestSessionToken token)
    (hlive : later < (createTestSession tu s now issued ttlEnv token d).2.expiresAt) :
    ∃ ctx, (consumeTestSession tu (createTestSession tu s now issued ttlEnv token d).1
        later token ip ua).result = some ctx ∧
      ctx.testTextId = d.testTextId ∧ ctx.durationSeconds = d.durationSeconds ∧
      ctx.userId = d.userId ∧ ctx.guestSessionId = d.guestSessionId := by
  have hold : s.test_sessions.filter
      (verifyWhere (tu.hashTestSessionToken token) later) = [] := by
    rw [List.filter_eq_nil_iff]
    intro r hr
    simp [verifyWhere, hfresh r hr]
  have hlive2 : later < now + ttlSeconds ttlEnv * 1000 := hlive
  simp [consumeTestSession, verifyQuery, createTestSession, List.filter_append, hold,
    List.filter_cons, verifyWhere, hlive2, contextOf]

/-- Witness of C3: issue on the example store with a fresh token, consume 5 seconds later. -/
theorem create_consume_roundtrip_witness :
    ∃ ctx, (consumeTestSession demoUtils
        (createTestSession demoUtils demoStore 1000 1005 none "tok-b"
          ⟨none, some 4, 9, 30, none, some "agent"⟩).1
        6000 "tok-b" none none).result = some ctx ∧
      ctx.testTextId = 9 ∧ ctx.durationSeconds = 30 ∧
      ctx.userId = none ∧ ctx.guestSessionId = some 4 :=
  create_consume_roundtrip demoUtils demoStore 1000 1005 6000 none "tok-b"
    ⟨none, some 4, 9, 30, none, some "agent"⟩ none none (by decide) (by decide)

/-- C4 (expired-token rejection): on a store whose token hashes are pairwise
distinct, if the session stored under the token has `expires_at ≤ now`, then
`consumeTestSession` returns `null`, whatever the session's used flag (so also when
it is false), and leaves the store, hence the session row, as it was. -/
theorem consumeTestSession_expired (tu : TokenUtils) (s : Store) (now : Int)
    (token : String) (ip ua : Option String) (r : TestSessionRow)
    (hd : TokenHashesDistinct s) (hr : r ∈ s.test_sessions)
    (htok : r.token_hash = tu.hashTestSessionToken token)
    (hexp : r.expires_at ≤ now) :
    (consumeTestSession tu s now token ip ua).result = none ∧
      (consumeTestSession tu s now token ip ua).store = s := by
  have hnil : verifyQuery tu s now token = [] := by
    rw [verifyQuery, List.filter_eq_nil_iff]
    intro r' hr'
    by_cases hh : r'.token_hash = tu.hashTestSessionToken token
    · have : r' = r := tokenHash_injOn hd hr' hr (hh.trans htok.symm)
      subst this
      simp [verifyWhere, not_lt.mpr hexp]
    · simp [verifyWhere, hh]
  simp [consumeTestSession, hnil]

/-- Witness of C4: the unused example session, presented after its expiry. -/
theorem consumeTestSession_expired_witness :
    demoSession.is_used = false ∧
    (consumeTestSession demoUtils demoStore 600000 "tok-a" none none).result = none ∧
      (consumeTestSession demoUtils demoStore 600000 "tok-a" none none).store = demoStore :=
  ⟨rfl, consumeTestSession_expired demoUtils demoStore 600000 "tok-a" none none demoSession
    (by decide) (by decide) (by decide) (by decide)⟩

/-! ## Result Recorder: user statistics -/

theorem statsAssignments_id (w : ℚ) (now : Int) (u : UserRow) :
    (statsAssignments w now u).id = u.id := rfl

theorem statsAssignments_is_active (w : ℚ) (now : Int) (u : UserRow) :
    (statsAssignments w now u).is_active = u.is_active := rfl

theorem statsAssignments_best_wpm (w : ℚ) (now : Int) (u : UserRow) :
    (statsAssignments w now u).best_wpm = max u.best_wpm w := rfl

theorem statsAssignments_avg_wpm (w : ℚ) (now : Int) (u : UserRow) :
    (statsAssignments w now u).avg_wpm = (u.avg_wpm * u.total_tests + w) / (u.total_tests + 1) :=
  rfl

theorem statsAssignments_total_tests (w : ℚ) (now : Int) (u : UserRow) :
    (statsAssignments w now u).total_tests = u.total_tests + 1 := rfl

/-- Selecting after an update that keeps the selection criterion selects the
updated image of the row selected before. -/
theorem head?_filter_map_of_preserved {α : Type} (p : α → Bool) (f : α → α)
    (hf : ∀ x, p (f x) = p x) (l : List α) :
    ((l.map f).filter p).head? = (l.filter p).head?.map f := by
  induction l with
  | nil => rfl
  | cons x xs ih =>
    simp only [List.map_cons, List.filter_cons, hf]
    split
    · simp
    · exact ih

/-- The row `getUserById` finds after the `UPDATE` of `updateUserStats` is the
updated image of the row it found before. -/
theorem getUserById_updateUserStats (s : Store) (now : Int) (uid : Nat) (w a : ℚ) :
    getUserById (updateUserStats s now uid w a).1 uid =
      (getUserById s uid).map (statsAssignments w now) := by
  simp only [updateUserStats, getUserById]
  rw [head?_filter_map_of_preserved]
  · cases hl : s.users.filter (fun u => u.id == uid && u.is_active) with
    | nil => rfl
    | cons x xs =>
      have hx : x ∈ s.users.filter (fun u => u.id == uid && u.is_active) := by simp [hl]
      have hp : (x.id == uid && x.is_active) = true := (List.mem_filter.mp hx).2
      simp only [List.head?_cons, Option.map]
      rw [if_pos hp]
  · intro x
    by_cases hp : (x.id == uid && x.is_active) = true
    · rw [if_pos hp]; rfl
    · rw [if_neg hp]

theorem updateUserStats_snd (s : Store) (now : Int) (uid : Nat) (w a : ℚ) :
    (updateUserStats s now uid w a).2 = (getUserById s uid).map (statsAssignments w now) :=
  getUserById_updateUserStats s now uid w a

/-- C7 (one step of the online update): for an active user with stats
`(bestWpm, avgWpm, totalTests)`, `updateUserStats(userId, wpm)` returns the user with
`bestWpm' = max(bestWpm, wpm)`, `avgWpm' = (avgWpm*totalTests + wpm)/(totalTests+1)`
on the values before the update, and `totalTests' = totalTests + 1`, and that is the
row a following `getUserById` reads. -/
theorem updateUserStats_step (s : Store) (now : Int) (uid : Nat) (wpm acc : ℚ) (u : UserRow)
    (hu : getUserById s uid = some u) :
    ∃ u', (updateUserStats s now uid wpm acc).2 = some u' ∧
      getUserById (updateUserStats s now uid wpm acc).1 uid = some u' ∧
      u'.best_wpm = max u.best_wpm wpm ∧
      u'.avg_wpm = (u.avg_wpm * u.total_tests + wpm) / (u.total_tests + 1) ∧
      u'.total_tests = u.total_tests + 1 :=
  ⟨statsAssignments wpm now u, by rw [updateUserStats_snd, hu]; rfl,
    by rw [getUserById_updateUserStats, hu]; rfl, rfl, rfl, rfl⟩

/-- Witness of C7: user 7 (best 50, average 40 over 2 tests) records 70 wpm. -/
theorem updateUserStats_step_witness :
    ∃ u', (updateUserStats demoStore 1000 7 70 95).2 = some u' ∧
      getUserById (updateUserStats demoStore 1000 7 70 95).1 7 = some u' ∧
      u'.best_wpm = max demoUser.best_wpm 70 ∧
      u'.avg_wpm = (demoUser.avg_wpm * demoUser.total_tests + 70) / (demoUser.total_tests + 1) ∧
      u'.total_tests = demoUser.total_tests + 1 :=
  updateUserStats_step demoStore 1000 7 70 95 demoUser (by decide)

theorem getUserById_updateUserStatsAll (now : Int) (uid : Nat) (acc : ℚ) (ws : List ℚ)
    (s : Store) :
    getUserById (updateUserStatsAll s now uid acc ws) uid =
      (getUserById s uid).map (foldStats now ws) := by
  induction ws generalizing s with
  | nil =>
    rw [updateUserStatsAll]
    cases getUserById s uid <;> rfl
  | cons w ws ih =>
    rw [updateUserStatsAll, ih, getUserById_updateUserStats, Option.map_map]
    rfl

theorem foldStats_spec (now : Int) (ws : List ℚ) (u : UserRow) :
    (foldStats now ws u).total_tests = u.total_tests + ws.length ∧
    (foldStats now ws u).avg_wpm * (foldStats now ws u).total_tests =
      u.avg_wpm * u.total_tests + ws.sum ∧
    (foldStats now ws u).best_wpm = ws.foldl max u.best_wpm := by
  induction ws generalizing u with
  | nil => simp [foldStats]
  | cons w ws ih =>
    obtain ⟨h1, h2, h3⟩ := ih (statsAssignments w now u)
    have hne : ((u.total_tests : ℚ) + 1) ≠ 0 := by positivity
    refine ⟨?_, ?_, ?_⟩
    · show (foldStats now ws (statsAssignments w now u)).total_tests = _
      rw [h1, statsAssignments_total_tests, List.length_cons]; omega
    · show (foldStats now ws (statsAssignments w now u)).avg_wpm *
        (foldStats now ws (statsAssignments w now u)).total_tests = _
      rw [h2, statsAssignments_avg_wpm, statsAssignments_total_tests, List.sum_cons]
      push_cast
      field_simp
      ring
    · show (foldStats now ws (statsAssignments w now u)).best_wpm = _
      rw [h3, statsAssignments_best_wpm, List.foldl_cons]

theorem le_foldl_max (ws : List ℚ) (b : ℚ) :
    b ≤ ws.foldl max b ∧ ∀ w ∈ ws, w ≤ ws.foldl max b := by
  induction ws generalizing b with
  | nil => simp
  | cons x xs ih =>
    obtain ⟨h1, h2⟩ := ih (max b x)
    refine ⟨le_trans (le_max_left b x) h1, ?_⟩
    intro w hw
    rcases List.mem_cons.mp hw with rfl | hw
    · exact le_trans (le_max_right b w) h1
    · exact h2 w hw

theorem foldl_max_mem (ws : List ℚ) (b : ℚ) :
    ws.foldl max b = b ∨ ws.foldl max b ∈ ws := by
  induction ws generalizing b with
  | nil => simp
  | cons x xs ih =>
    rcases ih (max b x) with h | h
    · rcases max_choice b x with hm | hm
      · left; rw [List.foldl_cons, h, hm]
      · right; rw [List.foldl_cons, h, hm]; exact List.mem_cons_self _ _
    · right; exact List.mem_cons_of_mem _ h

/-- C6 (stats after N submissions): for a user whose stats start at `bestWpm = 0`,
`avgWpm = 0`, `totalTests = 0`, after `updateUserStats` has been applied in order to
a non-empty list of non-negative values `w1..wN`, the user read back has
`totalTests = N`, a `bestWpm` that is the maximum of the list (a member of it that
bounds every member) and `avgWpm = (w1 + ... + wN) / N`. -/
theorem updateUserStats_sequence (s : Store) (now : Int) (uid : Nat) (acc : ℚ)
    (ws : List ℚ) (u : UserRow)
    (hu : getUserById s uid = some u)
    (hbest : u.best_wpm = 0) (havg : u.avg_wpm = 0) (htot : u.total_tests = 0)
    (hne : ws ≠ []) (hpos : ∀ w ∈ ws, 0 ≤ w) :
    ∃ u', getUserById (updateUserStatsAll s now uid acc ws) uid = some u' ∧
      u'.total_tests = ws.length ∧
      (u'.best_wpm ∈ ws ∧ ∀ w ∈ ws, w ≤ u'.best_wpm) ∧
      u'.avg_wpm = ws.sum / ws.length := by
  obtain ⟨h1, h2, h3⟩ := foldStats_spec now ws u
  refine ⟨foldStats now ws u, ?_, ?_, ⟨?_, ?_⟩, ?_⟩
  · rw [getUserById_updateUserStatsAll, hu]; rfl
  · rw [h1, htot, Nat.zero_add]
  · rw [h3, hbest]
    rcases foldl_max_mem ws 0 with h | h
    · obtain ⟨x, xs, rfl⟩ := List.exists_cons_of_ne_nil hne
      have hx0 : 0 ≤ x := hpos x (List.mem_cons_self _ _)
      have hx1 : x ≤ 0 := h ▸ (le_foldl_max (x :: xs) 0).2 x (List.mem_cons_self _ _)
      rw [h, show (0 : ℚ) = x from le_antisymm hx0 hx1]
      exact List.mem_cons_self _ _
    · exact h
  · rw [h3, hbest]; exact (le_foldl_max ws 0).2
  · have hlen : (ws.length : ℚ) ≠ 0 := by
      have : ws.length ≠ 0 := fun e => hne (List.length_eq_zero.mp e)
      exact_mod_cast this
    rw [h1, htot, Nat.zero_add, havg, zero_mul, zero_add] at h2
    rw [eq_div_iff hlen]; exact h2

/-- Witness of C6: user 8 starts from zero and records 40, 60 and 50 wpm. -/
theorem updateUserStats_sequence_witness :
    ∃ u', getUserById (updateUserStatsAll demoStore 1000 8 95 [40, 60, 50]) 8 = some u' ∧
      u'.total_tests = [(40 : ℚ), 60, 50].length ∧
      (u'.best_wpm ∈ [(40 : ℚ), 60, 50] ∧ ∀ w ∈ [(40 : ℚ), 60, 50], w ≤ u'.best_wpm) ∧
      u'.avg_wpm = [(40 : ℚ), 60, 50].sum / [(40 : ℚ), 60, 50].length :=
  updateUserStats_sequence demoStore 1000 8 95 [40, 60, 50] newUser (by decide) rfl rfl rfl
    (by decide) (by decide)

/-- The flag `isNewRecord` of every 201 response of `submitResult` is false: the
comparison reads `best_wpm` after `updateUserStats` has raised it to at least `wpm`. -/
theorem submitResult_isNewRecord_false (tu : TokenUtils) (s : Store) (now : Int)
    (req : SubmitRequest) (resp : SubmitResponse)
    (h : (submitResult tu s now req).2 = .ok resp) : resp.isNewRecord = false := by
  unfold submitResult at h
  simp only at h
  split at h
  · cases h
  · split at h
    · cases h
    · split at h
      · split at h
        · rename_i userId _ _
          simp only [updateUserStats_snd] at h
          cases hg : getUserById _ userId with
          | none => rw [hg] at h; cases h
          | some u0 =>
            rw [hg] at h
            injection h with h
            subst h
            simp [respondCreated, statsAssignments_best_wpm]
        · injection h with h; subst h; rfl
      · injection h with h; subst h; rfl

/-- C5 fails on the code: user 7 holds a best of 50 wpm and submits 60 wpm for a
valid session; the submission is accepted with status 201 and the stored best
becomes 60, yet the response carries `isNewRecord = false`. -/
theorem submitResult_isNewRecord_missed :
    (getUserById demoStore 7).map (·.best_wpm) = some 50 ∧
    demoRequest.body.wpm = 60 ∧
    (submitResult demoUtils demoStore 1000 demoRequest).2 =
      .ok { status := 201, result := demoResult, isNewRecord := false, isGuest := false } ∧
    (getUserById (submitResult demoUtils demoStore 1000 demoRequest).1 7).map (·.best_wpm) =
      some 60 := by
  exact ⟨by decide, rfl, rfl, by decide⟩

/-- C8 fails on the code: user 7 is deactivated after the session was issued; the
submission inserts the result row, the stats step finds no active user and the
handler ends in an error, and the result row stays in the store while no user row
has changed. -/
theorem submitResult_not_atomic :
    (submitResult demoUtils (deactivateUser demoStore 500 7).1 1000 demoRequest).2 =
      .error .typeError ∧
    (submitResult demoUtils (deactivateUser demoStore 500 7).1 1000 demoRequest).1.test_results =
      [demoResult] ∧
    (submitResult demoUtils (deactivateUser demoStore 500 7).1 1000 demoRequest).1.users =
      (deactivateUser demoStore 500 7).1.users := by
  exact ⟨rfl, by decide, by decide⟩

theorem consumeTestSession_store_results (tu : TokenUtils) (s : Store) (now : Int)
    (token : String) (ip ua : Option String) :
    (consumeTestSession tu s now token ip ua).store.test_results = s.test_results ∧
    (consumeTestSession tu s now token ip ua).store.users = s.users ∧
    (consumeTestSession tu s now token ip ua).store.guest_sessions = s.guest_sessions := by
  unfold consumeTestSession
  cases verifyQuery tu s now token <;> exact ⟨rfl, rfl, rfl⟩

theorem getUserById_congr {s s' : Store} (h : s.users = s'.users) (uid : Nat) :
    getUserById s uid = getUserById s' uid := by
  unfold getUserById; rw [h]

/-- An `UPDATE ... WHERE id = ? AND is_active = TRUE` for an id that no active row
carries changes no row. -/
theorem updateUserStats_users_of_none (s : Store) (now : Int) (uid : Nat) (w a : ℚ)
    (h : getUserById s uid = none) : (updateUserStats s now uid w a).1.users = s.users := by
  have hnil : s.users.filter (fun u => u.id == uid && u.is_active) = [] := by
    unfold getUserById at h
    cases hl : s.users.filter (fun u => u.id == uid && u.is_active) with
    | nil => rfl
    | cons x xs => rw [hl] at h; cases h
  rw [List.filter_eq_nil_iff] at hnil
  show s.users.map _ = s.users
  conv_rhs => rw [← List.map_id s.users]
  apply List.map_congr_left
  intro u hu
  rw [if_neg (hnil u hu)]
  rfl

/-- The shape of `submitResult` on an accepted submission of a session owned by a user. -/
theorem submitResult_of_owner (tu : TokenUtils) (s : Store) (now : Int)
    (req : SubmitRequest) (ctx : SessionContext) (uid : Nat)
    (hc : (consumeTestSession tu s now req.body.sessionToken req.ip req.userAgent).result =
      some ctx)
    (hdur : ctx.durationSeconds = req.body.durationSeconds)
    (hown : ctx.userId = some uid) (hid : uid ≠ 0) :
    submitResult tu s now req =
      ((updateUserStats (createTestResult
          (consumeTestSession tu s now req.body.sessionToken req.ip req.userAgent).store now
          (resultDataOf ctx req.body)).1 now uid req.body.wpm req.body.accuracy).1,
        match (updateUserStats (createTestResult
          (consumeTestSession tu s now req.body.sessionToken req.ip req.userAgent).store now
          (resultDataOf ctx req.body)).1 now uid req.body.wpm req.body.accuracy).2 with
        | none => .error .typeError
        | some user => .ok (respondCreated ctx (createTestResult
            (consumeTestSession tu s now req.body.sessionToken req.ip req.userAgent).store now
            (resultDataOf ctx req.body)).2 (decide (req.body.wpm > user.best_wpm)))) := by
  unfold submitResult
  simp only [hc]
  rw [if_neg (not_not.mpr hdur)]
  split
  · rename_i userId hu
    have hEq : userId = uid := by
      rw [hown] at hu; injection hu with h; exact h.symm
    subst hEq
    rw [if_pos hid]
  · rename_i hu
    rw [hown] at hu; cases hu

/-- What `submitResult` does on a submission that passes the session and duration
checks and whose session is owned by a user: it inserts the result row and then
runs the stats update as a separate step.  The result row is in the store
afterwards in every case; the active owner's stats row is the updated one; when
the owner is not an active user the handler ends in the error, no user row is
changed and the inserted result row stays. -/
theorem submitResult_records_then_updates (tu : TokenUtils) (s : Store) (now : Int)
    (req : SubmitRequest) (ctx : SessionContext) (uid : Nat)
    (hc : (consumeTestSession tu s now req.body.sessionToken req.ip req.userAgent).result =
      some ctx)
    (hdur : ctx.durationSeconds = req.body.durationSeconds)
    (hown : ctx.userId = some uid) (hid : uid ≠ 0) :
    (∃ r, (submitResult tu s now req).1.test_results = s.test_results ++ [r] ∧
      r.test_session_id = ctx.id ∧ r.user_id = some uid ∧ r.wpm = req.body.wpm) ∧
    getUserById (submitResult tu s now req).1 uid =
      (getUserById s uid).map (statsAssignments req.body.wpm now) ∧
    (getUserById s uid = none →
      (submitResult tu s now req).2 = .error .typeError ∧
      (submitResult tu s now req).1.users = s.users) := by
  obtain ⟨hres, husers, -⟩ :=
    consumeTestSession_store_results tu s now req.body.sessionToken req.ip req.userAgent
  rw [submitResult_of_owner tu s now req ctx uid hc hdur hown hid]
  generalize consumeTestSession tu s now req.body.sessionToken req.ip req.userAgent =
    consumed at hres husers
  have hcu : getUserById (createTestResult consumed.store now (resultDataOf ctx req.body)).1 uid =
      getUserById s uid := getUserById_congr husers uid
  refine ⟨⟨(createTestResult consumed.store now (resultDataOf ctx req.body)).2, ?_, rfl, hown,
    rfl⟩, ?_, ?_⟩
  · show (createTestResult consumed.store now (resultDataOf ctx req.body)).1.test_results = _
    rw [← hres]; rfl
  · show getUserById (updateUserStats _ now uid req.body.wpm req.body.accuracy).1 uid = _
    rw [getUserById_updateUserStats, hcu]
  · intro hnone
    refine ⟨?_, ?_⟩
    · show (match (updateUserStats _ now uid req.body.wpm req.body.accuracy).2 with
        | none => _ | some user => _) = _
      rw [updateUserStats_snd, hcu, hnone]
      rfl
    · show (updateUserStats _ now uid req.body.wpm req.body.accuracy).1.users = _
      rw [updateUserStats_users_of_none _ _ _ _ _ (hcu.trans hnone)]
      exact husers

/-- The example submission of the active user 7 inserts its row and updates the stats. -/
theorem submitResult_records_then_updates_witness :
    (∃ r, (submitResult demoUtils demoStore 1000 demoRequest).1.test_results =
        demoStore.test_results ++ [r] ∧
      r.test_session_id = (contextOf demoSession).id ∧ r.user_id = some 7 ∧
      r.wpm = demoRequest.body.wpm) ∧
    getUserById (submitResult demoUtils demoStore 1000 demoRequest).1 7 =
      (getUserById demoStore 7).map (statsAssignments demoRequest.body.wpm 1000) ∧
    (getUserById demoStore 7 = none →
      (submitResult demoUtils demoStore 1000 demoRequest).2 = .error .typeError ∧
      (submitResult demoUtils demoStore 1000 demoRequest).1.users = demoStore.users) :=
  submitResult_records_then_updates demoUtils demoStore 1000 demoRequest
    (contextOf demoSession) 7 (by decide) (by decide) rfl (by decide)

/-! ## Guest-to-User Reconciler -/

theorem getGuestSessionById_mem {s : Store} {guestId : String} {g : GuestSessionRow}
    (h : getGuestSessionById s guestId = some g) :
    g ∈ s.guest_sessions ∧ g.guest_id = guestId ∧ g.is_active = true := by
  unfold getGuestSessionById at h
  have hm := List.mem_of_mem_head? h
  simpa [List.mem_filter, and_assoc] using hm

/-- After `deactivateGuestSession(guestId)` no active session answers to `guestId`. -/
theorem getGuestSessionById_deactivate (s : Store) (guestId : String) :
    getGuestSessionById (deactivateGuestSession s guestId).1 guestId = none := by
  have hnil : (deactivateGuestSession s guestId).1.guest_sessions.filter
      (fun g => g.guest_id == guestId && g.is_active) = [] := by
    rw [List.filter_eq_nil_iff]
    intro g' hg'
    simp only [deactivateGuestSession, List.mem_map] at hg'
    obtain ⟨g, -, rfl⟩ := hg'
    by_cases hid : g.guest_id = guestId
    · simp [hid]
    · simp [hid]
  rw [getGuestSessionById, hnil]
  rfl

/-- The outcome of `claimGuestResults` when `guestId` names the active session `g`. -/
theorem claimGuestResults_of_active (s : Store) (guestId : String) (userId : Nat)
    (g : GuestSessionRow) (hg : getGuestSessionById s guestId = some g) :
    claimGuestResults s guestId userId =
      ((deactivateGuestSession { s with test_results := s.test_results.map (fun r =>
          if r.guest_session_id = some g.id then
            { r with user_id := some userId, guest_session_id := none } else r) } guestId).1,
        .ok { claimedResults :=
                s.test_results.countP (fun r => r.guest_session_id == some g.id),
              userId := userId, guestId := guestId }) := by
  rw [claimGuestResults, hg]

/-- C9 (reconciliation): when `guestId` names the active guest session `g`,
`claimGuestResults(guestId, userId)` succeeds and reports as `claimedResults` the
number of results that had `guest_session_id = g.id`; in the resulting store every
such result, at its place in the table, has `user_id = userId` and
`guest_session_id = NULL`, and the row of `g` has `is_active = false`. -/
theorem claimGuestResults_moves (s : Store) (guestId : String) (userId : Nat)
    (g : GuestSessionRow) (hg : getGuestSessionById s guestId = some g) :
    (claimGuestResults s guestId userId).2 =
      .ok { claimedResults := s.test_results.countP (fun r => r.guest_session_id == some g.id),
            userId := userId, guestId := guestId } ∧
    (claimGuestResults s guestId userId).1.test_results.length = s.test_results.length ∧
    (∀ (i : Nat) (r : TestResultRow), s.test_results[i]? = some r →
      r.guest_session_id = some g.id →
      ∃ r', (claimGuestResults s guestId userId).1.test_results[i]? = some r' ∧
        r'.user_id = some userId ∧ r'.guest_session_id = none) ∧
    (claimGuestResults s guestId userId).1.guest_sessions.length = s.guest_sessions.length ∧
    (∀ i : Nat, s.guest_sessions[i]? = some g →
      (claimGuestResults s guestId userId).1.guest_sessions[i]? =
        some { g with is_active := false }) ∧
    getGuestSessionById (claimGuestResults s guestId userId).1 guestId = none := by
  obtain ⟨-, hgid, -⟩ := getGuestSessionById_mem hg
  have hc := claimGuestResults_of_active s guestId userId g hg
  rw [hc]
  refine ⟨rfl, ?_, ?_, ?_, ?_, ?_⟩
  · simp [deactivateGuestSession]
  · intro i r hi hr
    simp [deactivateGuestSession, List.getElem?_map, hi, hr]
  · simp [deactivateGuestSession]
  · intro i hi
    simp [deactivateGuestSession, List.getElem?_map, hi, hgid]
  · exact getGuestSessionById_deactivate _ guestId

/-- Witness of C9: user 8 claims the two results of guest `g-1`. -/
theorem claimGuestResults_moves_witness :
    (claimGuestResults guestStore "g-1" 8).2 =
      .ok { claimedResults := 2, userId := 8, guestId := "g-1" } ∧
    (claimGuestResults guestStore "g-1" 8).1.test_results =
      [resultOf 1 (some 8) none, resultOf 2 none (some 5),
       resultOf 3 (some 7) none, resultOf 4 (some 8) none] ∧
    (∀ i : Nat, guestStore.guest_sessions[i]? = some demoGuest →
      (claimGuestResults guestStore "g-1" 8).1.guest_sessions[i]? =
        some { demoGuest with is_active := false }) :=
  ⟨(claimGuestResults_moves guestStore "g-1" 8 demoGuest (by decide)).1, by decide,
    (claimGuestResults_moves guestStore "g-1" 8 demoGuest (by decide)).2.2.2.2.1⟩

/-- C10 (idempotent, exclusive reconciliation): after `claimGuestResults(guestId, u1)`
has succeeded, a following `claimGuestResults(guestId, u2)`, for any `u2`, either
reports `claimedResults = 0` or fails with `Guest session not found`, and leaves the
store as the first call left it, so every result keeps the owner it had. -/
theorem claimGuestResults_idempotent (s : Store) (guestId : String) (u1 u2 : Nat)
    (c : ClaimResult) (h : (claimGuestResults s guestId u1).2 = .ok c) :
    ((∃ c2, (claimGuestResults (claimGuestResults s guestId u1).1 guestId u2).2 = .ok c2 ∧
        c2.claimedResults = 0) ∨
      (claimGuestResults (claimGuestResults s guestId u1).1 guestId u2).2 =
        .error "Guest session not found") ∧
    (claimGuestResults (claimGuestResults s guestId u1).1 guestId u2).1.test_results =
      (claimGuestResults s guestId u1).1.test_results ∧
    (claimGuestResults (claimGuestResults s guestId u1).1 guestId u2).1 =
      (claimGuestResults s guestId u1).1 := by
  cases hg : getGuestSessionById s guestId with
  | none => simp [claimGuestResults, hg] at h
  | some g =>
    have hnone : getGuestSessionById (claimGuestResults s guestId u1).1 guestId = none := by
      rw [claimGuestResults_of_active s guestId u1 g hg]
      exact getGuestSessionById_deactivate _ guestId
    have hsecond : claimGuestResults (claimGuestResults s guestId u1).1 guestId u2 =
        ((claimGuestResults s guestId u1).1, .error "Guest session not found") := by
      rw [claimGuestResults, hnone]
    rw [hsecond]
    exact ⟨Or.inr rfl, rfl, rfl⟩

/-- Witness of C10: after user 8 has claimed guest `g-1`, a claim by user 7 fails and
moves nothing. -/
theorem claimGuestResults_idempotent_witness :
    ((∃ c2, (claimGuestResults (claimGuestResults guestStore "g-1" 8).1 "g-1" 7).2 = .ok c2 ∧
        c2.claimedResults = 0) ∨
      (claimGuestResults (claimGuestResults guestStore "g-1" 8).1 "g-1" 7).2 =
        .error "Guest session not found") ∧
    (claimGuestResults (claimGuestResults guestStore "g-1" 8).1 "g-1" 7).1.test_results =
      (claimGuestResults guestStore "g-1" 8).1.test_results ∧
    (claimGuestResults (claimGuestResults guestStore "g-1" 8).1 "g-1" 7).1 =
      (claimGuestResults guestStore "g-1" 8).1 :=
  claimGuestResults_idempotent guestStore "g-1" 8 7
    { claimedResults := 2, userId := 8, guestId := "g-1" } rfl

/-! ## Scoring Engine -/

/-- C17 (`calculateWPM`): for every `correctChars` (so for the non-negative ones)
and every `timeInSeconds`, the function returns `(correctChars/5)/(timeInSeconds/60)`,
which is `12*correctChars/timeInSeconds`, when `timeInSeconds > 0`, and `0` when
`timeInSeconds ≤ 0`; and `calculateWPM(50, 60) = 10`. -/
theorem calculateWPM_spec (correctChars timeInSeconds : ℚ) :
    (0 < timeInSeconds →
      calculateWPM correctChars timeInSeconds = (correctChars / 5) / (timeInSeconds / 60) ∧
      calculateWPM correctChars timeInSeconds = 12 * correctChars / timeInSeconds) ∧
    (timeInSeconds ≤ 0 → calculateWPM correctChars timeInSeconds = 0) ∧
    calculateWPM 50 60 = 10 := by
  refine ⟨?_, ?_, ?_⟩
  · intro ht
    have hne : timeInSeconds ≠ 0 := ne_of_gt ht
    have h1 : calculateWPM correctChars timeInSeconds =
        (correctChars / 5) / (timeInSeconds / 60) := by
      unfold calculateWPM
      rw [if_neg (not_le.mpr ht)]
    refine ⟨h1, ?_⟩
    rw [h1]
    field_simp
    ring
  · intro ht
    unfold calculateWPM
    rw [if_pos ht]
  · unfold calculateWPM
    norm_num

/-- Witness of C17 at 250 correct characters in 60 seconds and at a zero duration. -/
theorem calculateWPM_spec_witness :
    calculateWPM 250 60 = 12 * 250 / 60 ∧ calculateWPM 250 0 = 0 :=
  ⟨((calculateWPM_spec 250 60).1 (by norm_num)).2, (calculateWPM_spec 250 0).2.1 (le_refl 0)⟩

/-- C18 (`calculateAccuracy`): for all non-negative integers `correctChars` and
`incorrectChars` the function returns `100` when both are zero and
`100*correctChars/(correctChars+incorrectChars)` otherwise; `calculateAccuracy(5, 0)`
and `calculateAccuracy(0, 0)` are both `100`. -/
theorem calculateAccuracy_spec (correctChars incorrectChars : ℕ) :
    calculateAccuracy correctChars incorrectChars =
      (if correctChars = 0 ∧ incorrectChars = 0 then 100
       else 100 * (correctChars : ℚ) / ((correctChars : ℚ) + incorrectChars)) ∧
    calculateAccuracy 5 0 = 100 ∧ calculateAccuracy 0 0 = 100 := by
  refine ⟨?_, ?_, ?_⟩
  · unfold calculateAccuracy
    by_cases h : correctChars = 0 ∧ incorrectChars = 0
    · obtain ⟨h1, h2⟩ := h
      subst h1 h2
      simp
    · have hsum : ((correctChars : ℚ) + incorrectChars) ≠ 0 := by
        have hpos : 0 < correctChars + incorrectChars := by omega
        exact_mod_cast (Nat.pos_iff_ne_zero.mp hpos)
      simp only [hsum, if_false, h]
      field_simp
      ring
  · unfold calculateAccuracy
    norm_num
  · unfold calculateAccuracy
    norm_num

/-- C19 (raw WPM): `calculateRawWPM` is `calculateWPM` on the same arguments, and it
is the value `finishTest` computes as `rawWpm` from `totalChars = userInput.length`
and the elapsed time, which `finishTest` then rounds and reports. -/
theorem calculateRawWPM_eq (totalChars timeInSeconds : ℚ) (st : TypingTest) (endTime : Int) :
    calculateRawWPM totalChars timeInSeconds = calculateWPM totalChars timeInSeconds ∧
    finishRawWpm st endTime =
      calculateRawWPM st.userInput.length (actualDuration st endTime) ∧
    (st.testState = .active →
      (finishTest st endTime).results.map (·.rawWpm) =
        some (mathRound (calculateRawWPM st.userInput.length (actualDuration st endTime)))) := by
  refine ⟨rfl, rfl, ?_⟩
  intro hact
  unfold finishTest
  rw [if_neg (not_not.mpr hact)]
  rfl

/-- Witness of C19: the running example test, finished 30 seconds after its start. -/
theorem calculateRawWPM_eq_witness :
    calculateRawWPM 260 60 = calculateWPM 260 60 ∧
    finishRawWpm demoTyping 31000 =
      calculateRawWPM demoTyping.userInput.length (actualDuration demoTyping 31000) ∧
    (finishTest demoTyping 31000).results.map (·.rawWpm) =
      some (mathRound (calculateRawWPM demoTyping.userInput.length
        (actualDuration demoTyping 31000))) :=
  ⟨(calculateRawWPM_eq 260 60 demoTyping 31000).1, (calculateRawWPM_eq 260 60 demoTyping 31000).2.1,
    (calculateRawWPM_eq 260 60 demoTyping 31000).2.2 rfl⟩

/-- C20 (scenario): for 250 correct, 10 incorrect and 260 total characters in 60
seconds, `calculateWPM(250, 60) = 50`, `calculateRawWPM(260, 60) = 52` and
`calculateAccuracy(250, 10) = 2500/26`, which `Math.round(x * 100) / 100` turns into
`96.15`; the record with these values passes `validateTestResult` without errors. -/
theorem scenario_metrics :
    calculateWPM 250 60 = 50 ∧ calculateRawWPM 260 60 = 52 ∧
    calculateAccuracy 250 10 = 2500 / 26 ∧
    (mathRound (calculateAccuracy 250 10 * 100) : ℚ) / 100 = 9615 / 100 ∧
    validateTestResult scenarioRecord = { isValid := true, errors := [] } ∧
    validateTestResult { scenarioRecord with accuracy := some (calculateAccuracy 250 10) } =
      { isValid := true, errors := [] } := by
  refine ⟨?_, ?_, ?_, ?_, ?_, ?_⟩
  · unfold calculateWPM; norm_num
  · unfold calculateRawWPM; norm_num
  · unfold calculateAccuracy; norm_num
  · have h : mathRound (calculateAccuracy 250 10 * 100) = 9615 := by
      show ⌊(calculateAccuracy 250 10 * 100 + 1 / 2 : ℚ)⌋ = 9615
      rw [Int.floor_eq_iff]
      unfold calculateAccuracy
      norm_num
    rw [h]; norm_num
  · norm_num [validateTestResult, scenarioRecord, numericRecord, fieldLt, fieldGt, fieldSum,
      fieldStrictNe]
  · norm_num [validateTestResult, scenarioRecord, numericRecord, fieldLt, fieldGt, fieldSum,
      fieldStrictNe, calculateAccuracy]

/-! ## Reconciler and Result Recorder: failure paths and ownership -/

theorem getGuestSessionById_eq_none_iff (s : Store) (guestId : String) :
    getGuestSessionById s guestId = none ↔
      ∀ g ∈ s.guest_sessions, g.guest_id = guestId → g.is_active = false := by
  unfold getGuestSessionById
  rw [List.head?_eq_none_iff, List.filter_eq_nil_iff]
  constructor
  · intro h g hg hid
    have := h g hg
    simpa [hid] using this
  · intro h g hg
    by_cases hid : g.guest_id = guestId
    · simp [hid, h g hg hid]
    · simp [hid]

/-- C11 (`Guest session not found`): `claimGuestResults(guestId, userId)` fails with
that error exactly when no guest session carries `guestId` or every session that
carries it (the one that exists, guest ids being unique) has `is_active = false`;
and when it fails it leaves the store, so every TestResult and every guest
session, unchanged. -/
theorem claimGuestResults_not_found_iff (s : Store) (guestId : String) (userId : Nat) :
    ((claimGuestResults s guestId userId).2 = .error "Guest session not found" ↔
      ((¬ ∃ g ∈ s.guest_sessions, g.guest_id = guestId) ∨
        (∀ g ∈ s.guest_sessions, g.guest_id = guestId → g.is_active = false))) ∧
    ((claimGuestResults s guestId userId).2 = .error "Guest session not found" →
      (claimGuestResults s guestId userId).1.test_results = s.test_results ∧
      (claimGuestResults s guestId userId).1.guest_sessions = s.guest_sessions ∧
      (claimGuestResults s guestId userId).1 = s) := by
  have hall : ((¬ ∃ g ∈ s.guest_sessions, g.guest_id = guestId) ∨
      (∀ g ∈ s.guest_sessions, g.guest_id = guestId → g.is_active = false)) ↔
      ∀ g ∈ s.guest_sessions, g.guest_id = guestId → g.is_active = false := by
    constructor
    · rintro (h | h)
      · intro g hg hid
        exact absurd ⟨g, hg, hid⟩ h
      · exact h
    · exact Or.inr
  rw [hall, ← getGuestSessionById_eq_none_iff]
  cases hg : getGuestSessionById s guestId with
  | none =>
    have hc : claimGuestResults s guestId userId = (s, .error "Guest session not found") := by
      rw [claimGuestResults, hg]
    rw [hc]
    exact ⟨⟨fun _ => rfl, fun _ => rfl⟩, fun _ => ⟨rfl, rfl, rfl⟩⟩
  | some g =>
    rw [claimGuestResults_of_active s guestId userId g hg]
    refine ⟨⟨fun h => ?_, fun h => ?_⟩, fun h => ?_⟩
    · cases h
    · cases h
    · cases h

/-- Witness of C11: no session carries `g-9`, so the claim fails and moves nothing. -/
theorem claimGuestResults_not_found_iff_witness :
    (claimGuestResults guestStore "g-9" 8).2 = .error "Guest session not found" ∧
    (claimGuestResults guestStore "g-9" 8).1 = guestStore :=
  ⟨(claimGuestResults_not_found_iff guestStore "g-9" 8).1.mpr (Or.inl (by decide)),
    ((claimGuestResults_not_found_iff guestStore "g-9" 8).2 rfl).2.2⟩

theorem consumeTestSession_result_some {tu : TokenUtils} {s : Store} {now : Int}
    {token : String} {ip ua : Option String} {ctx : SessionContext}
    (h : (consumeTestSession tu s now token ip ua).result = some ctx) :
    ∃ session rest, verifyQuery tu s now token = session :: rest ∧ ctx = contextOf session := by
  unfold consumeTestSession at h
  cases hv : verifyQuery tu s now token with
  | nil => rw [hv] at h; cases h
  | cons session rest =>
    rw [hv] at h
    injection h with h
    exact ⟨session, rest, rfl, h.symm⟩

/-- C14 (duration mismatch): when the session consumed for the token is bound to a
`durationSeconds` other than the one declared in the body, `submitResult` fails with
the 400 error `Duration mismatch with session`, and the tables `test_results` and
`users` are as before: no TestResult is persisted and no stats are updated. -/
theorem submitResult_duration_mismatch (tu : TokenUtils) (s : Store) (now : Int)
    (req : SubmitRequest) (ctx : SessionContext)
    (hc : (consumeTestSession tu s now req.body.sessionToken req.ip req.userAgent).result =
      some ctx)
    (hne : ctx.durationSeconds ≠ req.body.durationSeconds) :
    (submitResult tu s now req).2 = .error (.http "Duration mismatch with session" 400) ∧
    (submitResult tu s now req).1.test_results = s.test_results ∧
    (submitResult tu s now req).1.users = s.users := by
  obtain ⟨hres, husers, -⟩ :=
    consumeTestSession_store_results tu s now req.body.sessionToken req.ip req.userAgent
  have hsub : submitResult tu s now req =
      ((consumeTestSession tu s now req.body.sessionToken req.ip req.userAgent).store,
        .error (.http "Duration mismatch with session" 400)) := by
    unfold submitResult
    simp only [hc]
    rw [if_pos hne]
  rw [hsub]
  exact ⟨rfl, hres, husers⟩

/-- Witness of C14: the example session is bound to 60 seconds, the body declares 30. -/
theorem submitResult_duration_mismatch_witness :
    (submitResult demoUtils demoStore 1000
        { demoRequest with body := { demoRequest.body with durationSeconds := 30 } }).2 =
      .error (.http "Duration mismatch with session" 400) ∧
    (submitResult demoUtils demoStore 1000
        { demoRequest with body := { demoRequest.body with durationSeconds := 30 } }).1.test_results =
      demoStore.test_results ∧
    (submitResult demoUtils demoStore 1000
        { demoRequest with body := { demoRequest.body with durationSeconds := 30 } }).1.users =
      demoStore.users :=
  submitResult_duration_mismatch demoUtils demoStore 1000
    { demoRequest with body := { demoRequest.body with durationSeconds := 30 } }
    (contextOf demoSession) (by decide) (by decide)

/-- Whenever the session and duration checks pass, the row built from the session
context and the body is appended to `test_results`, whatever happens afterwards. -/
theorem submitResult_appends (tu : TokenUtils) (s : Store) (now : Int) (req : SubmitRequest)
    (ctx : SessionContext)
    (hc : (consumeTestSession tu s now req.body.sessionToken req.ip req.userAgent).result =
      some ctx)
    (hd : ctx.durationSeconds = req.body.durationSeconds) :
    (submitResult tu s now req).1.test_results =
      s.test_results ++ [(createTestResult s now (resultDataOf ctx req.body)).2] := by
  obtain ⟨hres, -, -⟩ :=
    consumeTestSession_store_results tu s now req.body.sessionToken req.ip req.userAgent
  have happ : (createTestResult
      (consumeTestSession tu s now req.body.sessionToken req.ip req.userAgent).store now
        (resultDataOf ctx req.body)).1.test_results =
      s.test_results ++ [(createTestResult s now (resultDataOf ctx req.body)).2] := by
    simp only [createTestResult, hres]
  unfold submitResult
  simp only [hc]
  rw [if_neg (not_not.mpr hd)]
  split
  · split
    · exact happ
    · exact happ
  · exact happ

/-- What an accepted submission looks like: a session was consumed, the declared
duration is the bound one, and the response carries the row that was appended to
`test_results`, built from the session context and the body. -/
theorem submitResult_ok_inv (tu : TokenUtils) (s : Store) (now : Int) (req : SubmitRequest)
    (resp : SubmitResponse) (h : (submitResult tu s now req).2 = .ok resp) :
    ∃ ctx, (consumeTestSession tu s now req.body.sessionToken req.ip req.userAgent).result =
        some ctx ∧
      ctx.durationSeconds = req.body.durationSeconds ∧
      resp.result = (createTestResult s now (resultDataOf ctx req.body)).2 ∧
      (submitResult tu s now req).1.test_results = s.test_results ++ [resp.result] := by
  obtain ⟨hres, -, -⟩ :=
    consumeTestSession_store_results tu s now req.body.sessionToken req.ip req.userAgent
  have hrow : ∀ d, (createTestResult
      (consumeTestSession tu s now req.body.sessionToken req.ip req.userAgent).store now d).2 =
      (createTestResult s now d).2 := by
    intro d; simp only [createTestResult, hres]
  cases hc : (consumeTestSession tu s now req.body.sessionToken req.ip req.userAgent).result with
  | none =>
    unfold submitResult at h
    simp only [hc] at h
    cases h
  | some ctx =>
    by_cases hd : ctx.durationSeconds = req.body.durationSeconds
    · have happ := submitResult_appends tu s now req ctx hc hd
      have hrr : resp.result = (createTestResult s now (resultDataOf ctx req.body)).2 := by
        unfold submitResult at h
        simp only [hc] at h
        rw [if_neg (not_not.mpr hd)] at h
        split at h
        · split at h
          · split at h
            · cases h
            · injection h with h
              subst h
              exact hrow _
          · injection h with h
            subst h
            exact hrow _
        · injection h with h
          subst h
          exact hrow _
      exact ⟨ctx, rfl, hd, hrr, by rw [hrr]; exact happ⟩
    · unfold submitResult at h
      simp only [hc] at h
      rw [if_pos hd] at h
      cases h

/-- C15 (owner non-interference): the TestResult an accepted submission persists
carries the `user_id` and `guest_session_id` of the session row stored under the
token, the owner bound at issue, whatever `req.user`, `req.guestSession`, the
fingerprint and the rest of the body are; a second accepted submission of the same
token on the same store, differing in those inputs, persists the same owner. -/
theorem submitResult_owner_from_session (tu : TokenUtils) (s : Store) (now : Int)
    (req req2 : SubmitRequest) (resp resp2 : SubmitResponse)
    (htok : req2.body.sessionToken = req.body.sessionToken)
    (h : (submitResult tu s now req).2 = .ok resp)
    (h2 : (submitResult tu s now req2).2 = .ok resp2) :
    ∃ session ∈ s.test_sessions,
      session.token_hash = tu.hashTestSessionToken req.body.sessionToken ∧
      (submitResult tu s now req).1.test_results = s.test_results ++ [resp.result] ∧
      resp.result.user_id = session.user_id ∧
      resp.result.guest_session_id = session.guest_session_id ∧
      resp2.result.user_id = resp.result.user_id ∧
      resp2.result.guest_session_id = resp.result.guest_session_id := by
  obtain ⟨ctx, hc, -, hr, happ⟩ := submitResult_ok_inv tu s now req resp h
  obtain ⟨ctx2, hc2, -, hr2, -⟩ := submitResult_ok_inv tu s now req2 resp2 h2
  obtain ⟨session, rest, hv, hctx⟩ := consumeTestSession_result_some hc
  obtain ⟨session2, rest2, hv2, hctx2⟩ := consumeTestSession_result_some hc2
  rw [htok, hv] at hv2
  injection hv2 with hs _
  subst hs
  have hmem : session ∈ verifyQuery tu s now req.body.sessionToken := by simp [hv]
  obtain ⟨hin, hhash, -, -⟩ := verifyQuery_mem hmem
  refine ⟨session, hin, hhash, happ, ?_, ?_, ?_, ?_⟩
  · rw [hr, hctx]; rfl
  · rw [hr, hctx]; rfl
  · rw [hr, hr2, hctx, hctx2]; rfl
  · rw [hr, hr2, hctx, hctx2]; rfl

/-- Witness of C15: the example submission sent as user 7 and sent again, on the same
store, under a guest identity, from another address and with another speed. -/
theorem submitResult_owner_from_session_witness :
    ∃ session ∈ demoStore.test_sessions,
      session.token_hash = demoUtils.hashTestSessionToken demoRequest.body.sessionToken ∧
      (submitResult demoUtils demoStore 1000 demoRequest).1.test_results =
        demoStore.test_results ++ [demoResult] ∧
      demoResult.user_id = session.user_id ∧
      demoResult.guest_session_id = session.guest_session_id ∧
      ({ demoResult with wpm := 80 } : TestResultRow).user_id = demoResult.user_id ∧
      ({ demoResult with wpm := 80 } : TestResultRow).guest_session_id =
        demoResult.guest_session_id :=
  submitResult_owner_from_session demoUtils demoStore 1000 demoRequest
    { demoRequest with user := none, guestSession := some 5, ip := none,
                       body := { demoRequest.body with wpm := 80 } }
    { status := 201, result := demoResult, isNewRecord := false, isGuest := false }
    { status := 201, result := { demoResult with wpm := 80 }, isNewRecord := false,
      isGuest := false }
    rfl rfl rfl

/-! ## Stored metrics and session owners -/

/-- C16 fails on the code: the forged submission (300 wpm, one correct character in
60 seconds) passes `validateTestSubmission`, is accepted with status 201 and is
persisted with the declared 300 wpm, while `calculateWPM(1, 60) = 1/5`. -/
theorem submitResult_stores_declared_metrics :
    validateTestSubmission forgedRequest.body = .ok () ∧
    (submitResult demoUtils textStore 1000 forgedRequest).2 =
      .ok { status := 201, result := forgedResult, isNewRecord := false, isGuest := true } ∧
    (submitResult demoUtils textStore 1000 forgedRequest).1.test_results = [forgedResult] ∧
    forgedResult.wpm = 300 ∧
    calculateWPM forgedRequest.body.correctChars forgedRequest.body.durationSeconds = 1 / 5 := by
  refine ⟨rfl, rfl, by decide, rfl, ?_⟩
  norm_num [calculateWPM, forgedRequest]

/-- C16 as amended: for every submission that `submitResult` accepts, the persisted
TestResult stores the `wpm`, `rawWpm` and `accuracy` declared in the request body,
next to the declared counters; nothing is recomputed from the counters. -/
theorem submitResult_persists_declared (tu : TokenUtils) (s : Store) (now : Int)
    (req : SubmitRequest) (resp : SubmitResponse)
    (h : (submitResult tu s now req).2 = .ok resp) :
    (submitResult tu s now req).1.test_results = s.test_results ++ [resp.result] ∧
    resp.result.wpm = req.body.wpm ∧ resp.result.raw_wpm = req.body.rawWpm ∧
    resp.result.accuracy = req.body.accuracy ∧
    resp.result.correct_chars = req.body.correctChars ∧
    resp.result.incorrect_chars = req.body.incorrectChars ∧
    resp.result.total_chars = req.body.totalChars := by
  obtain ⟨ctx, -, -, hr, happ⟩ := submitResult_ok_inv tu s now req resp h
  refine ⟨happ, ?_, ?_, ?_, ?_, ?_, ?_⟩ <;> rw [hr] <;> rfl

/-- Witness of C16 as amended: the forged submission itself. -/
theorem submitResult_persists_declared_witness :
    (submitResult demoUtils textStore 1000 forgedRequest).1.test_results =
      textStore.test_results ++ [forgedResult] ∧
    forgedResult.wpm = forgedRequest.body.wpm ∧
    forgedResult.raw_wpm = forgedRequest.body.rawWpm ∧
    forgedResult.accuracy = forgedRequest.body.accuracy ∧
    forgedResult.correct_chars = forgedRequest.body.correctChars ∧
    forgedResult.incorrect_chars = forgedRequest.body.incorrectChars ∧
    forgedResult.total_chars = forgedRequest.body.totalChars :=
  submitResult_persists_declared demoUtils textStore 1000 forgedRequest
    { status := 201, result := forgedResult, isNewRecord := false, isGuest := true } rfl

/-- C13 fails on the code: on the example store a `GET /texts` request with neither
a user nor a guest session is answered with a session and adds a row with both
owner columns `NULL`; a request with both adds a row with both set. -/
theorem getText_accepts_any_owner :
    (∃ resp, (getText demoUtils textStore 1000 1005 none 0 "tok-n" (textRequestOf none none)).2 =
      .ok resp) ∧
    (getText demoUtils textStore 1000 1005 none 0 "tok-n"
        (textRequestOf none none)).1.test_sessions.map (fun r => (r.user_id, r.guest_session_id)) =
      [(none, some 4), (none, none)] ∧
    (∃ resp, (getText demoUtils textStore 1000 1005 none 0 "tok-n"
        (textRequestOf (some 7) (some 4))).2 = .ok resp) ∧
    (getText demoUtils textStore 1000 1005 none 0 "tok-n"
        (textRequestOf (some 7) (some 4))).1.test_sessions.map
          (fun r => (r.user_id, r.guest_session_id)) =
      [(none, some 4), (some 7, some 4)] :=
  ⟨⟨_, rfl⟩, by decide, ⟨_, rfl⟩, by decide⟩

/-- C13 as amended: `createTestSession` checks no owner and never fails: for every
`userId` and `guestSessionId` (both, one or none given) it adds exactly one unused
row that carries them as given; and whenever a text is available, `getText` answers
with a session and adds exactly one row whose owner columns are `req.user?.id || null`
and `req.guestSession?.id || null`. -/
theorem createTestSession_any_owner (tu : TokenUtils) (s : Store) (now issued : Int)
    (ttlEnv : Option Int) (token : String) (d : SessionData) (rand : Nat) (req : TextRequest) :
    (∃ row, (createTestSession tu s now issued ttlEnv token d).1.test_sessions =
        s.test_sessions ++ [row] ∧
      row.user_id = d.userId ∧ row.guest_session_id = d.guestSessionId ∧
      row.is_used = false) ∧
    ((getRandomText s rand (req.query.language.getD "en")
        (req.query.difficulty.getD "medium")).isSome →
      (∃ resp, (getText tu s now issued ttlEnv rand token req).2 = .ok resp) ∧
      ∃ row, (getText tu s now issued ttlEnv rand token req).1.test_sessions =
          s.test_sessions ++ [row] ∧
        row.user_id = idOrNull req.user ∧ row.guest_session_id = idOrNull req.guestSession ∧
        row.is_used = false) := by
  refine ⟨⟨_, rfl, rfl, rfl, rfl⟩, ?_⟩
  intro hsome
  unfold getText
  simp only
  cases ht : getRandomText s rand (req.query.language.getD "en")
      (req.query.difficulty.getD "medium") with
  | none => rw [ht] at hsome; cases hsome
  | some text =>
    simp only [ht]
    exact ⟨⟨_, rfl⟩, _, rfl, rfl, rfl, rfl⟩

/-- Witness of C13 as amended: a session for guest 4 alone, and a `GET /texts`
request of user 7 alone on the example store. -/
theorem createTestSession_any_owner_witness :
    (∃ row, (createTestSession demoUtils textStore 1000 1005 none "tok-n"
          ⟨none, some 4, 3, 60, none, none⟩).1.test_sessions =
        textStore.test_sessions ++ [row] ∧
      row.user_id = none ∧ row.guest_session_id = some 4 ∧ row.is_used = false) ∧
    (∃ resp, (getText demoUtils textStore 1000 1005 none 0 "tok-n"
        (textRequestOf (some 7) none)).2 = .ok resp) ∧
    ∃ row, (getText demoUtils textStore 1000 1005 none 0 "tok-n"
          (textRequestOf (some 7) none)).1.test_sessions = textStore.test_sessions ++ [row] ∧
      row.user_id = idOrNull (some 7) ∧ row.guest_session_id = idOrNull none ∧
      row.is_used = false :=
  ⟨(createTestSession_any_owner demoUtils textStore 1000 1005 none "tok-n"
      ⟨none, some 4, 3, 60, none, none⟩ 0 (textRequestOf (some 7) none)).1,
    (createTestSession_any_owner demoUtils textStore 1000 1005 none "tok-n"
      ⟨none, some 4, 3, 60, none, none⟩ 0 (textRequestOf (some 7) none)).2 (by decide)⟩

/-! ## Authentication flows and reconciliation -/

theorem le_foldl_max_nat (l : List Nat) (b : Nat) :
    b ≤ l.foldl max b ∧ ∀ x ∈ l, x ≤ l.foldl max b := by
  induction l generalizing b with
  | nil => simp
  | cons y ys ih =>
    obtain ⟨h1, h2⟩ := ih (max b y)
    refine ⟨le_trans (le_max_left b y) h1, ?_⟩
    intro x hx
    rcases List.mem_cons.mp hx with rfl | hx
    · exact le_trans (le_max_right b x) h1
    · exact h2 x hx

/-- The next auto-increment id is above every id of the table. -/
theorem lt_insertId (ids : List Nat) (x : Nat) (hx : x ∈ ids) : x < insertId ids :=
  Nat.lt_succ_of_le ((le_foldl_max_nat ids 0).2 x hx)

/-- The user `createUser` reads back is the row it inserted. -/
theorem createUser_snd (au : AuthUtils) (s : Store) (now : Int) (d : UserData)
    (hpw : d.password ≠ "") :
    (createUser au s now d).2 = .ok (some
      { id := insertId (s.users.map (·.id)), username := d.username, best_wpm := 0,
        avg_wpm := 0, total_tests := 0, updated_at := now, is_active := true,
        email := d.email, password_hash := au.hash d.password, avatar_url := none,
        created_at := now }) := by
  have hold : s.users.filter
      (fun u => u.id == insertId (s.users.map (·.id)) && u.is_active) = [] := by
    rw [List.filter_eq_nil_iff]
    intro u hu
    have hlt := lt_insertId (s.users.map (·.id)) u.id (List.mem_map_of_mem _ hu)
    simp [Nat.ne_of_lt hlt]
  simp only [createUser, hashPassword, if_neg hpw, getUserById, List.filter_append, hold,
    List.nil_append]
  simp [List.filter_cons]

theorem validatePasswordStrength_ne_empty (password : String)
    (h : (validatePasswordStrength password).isValid = true) : password ≠ "" := by
  intro he
  subst he
  simp [validatePasswordStrength] at h

/-- C12 (best-effort reconciliation): a login whose credentials are accepted is
answered with status 200, the validated user and the signed tokens, and a
registration whose data is accepted with status 201, the created user and the
signed tokens; the answer is the same for every guest session the request may
carry, so whether `claimGuestResults` succeeds or throws makes no difference and
never turns into a failed login or registration. -/
theorem auth_outcome_ignores_claim (tu : TokenUtils) (au : AuthUtils) (s : Store) (now : Int) :
    (∀ (req : LoginRequest) (user : UserRow),
      validateUserCredentials au s req.username req.password = some user →
      (login tu au s now req).2 =
        .ok { status := 200, message := "Login successful", user := publicUser user,
              accessToken := au.signAccessToken user.id user.username,
              refreshToken := au.signRefreshToken user.id } ∧
      ∀ g : Option GuestRef,
        (login tu au s now { req with guestSession := g }).2 = (login tu au s now req).2) ∧
    (∀ req : RegisterRequest,
      (validatePasswordStrength req.password).isValid = true →
      checkUsernameExists s req.username = false → checkEmailExists s req.email = false →
      (∃ user, (createUser au s now
            { username := req.username, email := req.email, password := req.password }).2 =
          .ok (some user) ∧
        (register tu au s now req).2 =
          .ok { status := 201, message := "User registered successfully",
                user := publicUser user,
                accessToken := au.signAccessToken user.id user.username,
                refreshToken := au.signRefreshToken user.id }) ∧
      ∀ g : Option GuestRef,
        (register tu au s now { req with guestSession := g }).2 =
          (register tu au s now req).2) := by
  refine ⟨?_, ?_⟩
  · intro req user hcred
    have hlogin : ∀ g : Option GuestRef, (login tu au s now { req with guestSession := g }).2 =
        .ok { status := 200, message := "Login successful", user := publicUser user,
              accessToken := au.signAccessToken user.id user.username,
              refreshToken := au.signRefreshToken user.id } := by
      intro g
      simp only [login, hcred, finishAuth]
    have h0 := hlogin req.guestSession
    exact ⟨h0, fun g => (hlogin g).trans h0.symm⟩
  · intro req hvalid huser hemail
    have hpw : req.password ≠ "" := validatePasswordStrength_ne_empty req.password hvalid
    have hcreate := createUser_snd au s now
      { username := req.username, email := req.email, password := req.password } hpw
    have hreg : ∀ g : Option GuestRef,
        (register tu au s now { req with guestSession := g }).2 =
          .ok { status := 201, message := "User registered successfully",
                user := publicUser
                  { id := insertId (s.users.map (·.id)), username := req.username,
                    best_wpm := 0, avg_wpm := 0, total_tests := 0, updated_at := now,
                    is_active := true, email := req.email,
                    password_hash := au.hash req.password, avatar_url := none,
                    created_at := now },
                accessToken := au.signAccessToken (insertId (s.users.map (·.id))) req.username,
                refreshToken := au.signRefreshToken (insertId (s.users.map (·.id))) } := by
      intro g
      unfold register
      simp only [hvalid, huser, hemail, Bool.not_true, Bool.false_eq_true, if_false]
      cases hc : createUser au s now
          { username := req.username, email := req.email, password := req.password } with
      | mk s1 r =>
        rw [hc] at hcreate
        simp only at hcreate
        subst hcreate
        rfl
    have h0 := hreg req.guestSession
    exact ⟨⟨_, hcreate, h0⟩, fun g => (hreg g).trans h0.symm⟩

/-- Witness of C12: user 7 logs in, and a new account registers, once with the
active guest session `g-1` (the claim moves two results) and once with a guest id
that no session carries (the claim throws); the answers are the same. -/
theorem auth_outcome_ignores_claim_witness :
    (claimGuestResults authStore "g-1" 7).2 =
      .ok { claimedResults := 2, userId := 7, guestId := "g-1" } ∧
    (claimGuestResults authStore "g-9" 7).2 = .error "Guest session not found" ∧
    (login demoUtils demoAuth authStore 1000 (loginOf (some ⟨4, "g-1"⟩))).2 =
      .ok { status := 200, message := "Login successful",
            user := publicUser { demoUser with email := "ann@example.org" },
            accessToken := demoAuth.signAccessToken 7 "ann",
            refreshToken := demoAuth.signRefreshToken 7 } ∧
    (login demoUtils demoAuth authStore 1000 (loginOf (some ⟨9, "g-9"⟩))).2 =
      (login demoUtils demoAuth authStore 1000 (loginOf (some ⟨4, "g-1"⟩))).2 ∧
    (∃ user, (createUser demoAuth authStore 1000
          { username := "cleo", email := "cleo@example.org", password := "Typing#2024" }).2 =
        .ok (some user) ∧
      (register demoUtils demoAuth authStore 1000 (registerOf (some ⟨4, "g-1"⟩))).2 =
        .ok { status := 201, message := "User registered successfully",
              user := publicUser user,
              accessToken := demoAuth.signAccessToken user.id user.username,
              refreshToken := demoAuth.signRefreshToken user.id }) ∧
    (register demoUtils demoAuth authStore 1000 (registerOf (some ⟨9, "g-9"⟩))).2 =
      (register demoUtils demoAuth authStore 1000 (registerOf (some ⟨4, "g-1"⟩))).2 :=
  ⟨rfl, rfl,
    ((auth_outcome_ignores_claim demoUtils demoAuth authStore 1000).1
      (loginOf (some ⟨4, "g-1"⟩)) { demoUser with email := "ann@example.org" } (by decide)).1,
    ((auth_outcome_ignores_claim demoUtils demoAuth authStore 1000).1
      (loginOf (some ⟨4, "g-1"⟩)) { demoUser with email := "ann@example.org" } (by decide)).2
      (some ⟨9, "g-9"⟩),
    ((auth_outcome_ignores_claim demoUtils demoAuth authStore 1000).2
      (registerOf (some ⟨4, "g-1"⟩)) (by decide) (by decide) (by decide)).1,
    ((auth_outcome_ignores_claim demoUtils demoAuth authStore 1000).2
      (registerOf (some ⟨4, "g-1"⟩)) (by decide) (by decide) (by decide)).2
      (some ⟨9, "g-9"⟩)⟩

/-! ## Metric validation, accuracy range, fingerprint, text selection -/

/-- C21 fails on the code: a record without `durationSeconds`, and one without `wpm`
and `accuracy`, pass `validateTestResult` with no error, since every comparison
with a missing field is false. -/
theorem validateTestResult_missing_fields :
    validateTestResult { scenarioRecord with durationSeconds := none } =
      { isValid := true, errors := [] } ∧
    validateTestResult { scenarioRecord with wpm := none, accuracy := none } =
      { isValid := true, errors := [] } := by
  constructor <;>
    norm_num [validateTestResult, scenarioRecord, numericRecord, fieldLt, fieldGt, fieldSum,
      fieldStrictNe]

/-- C21 as amended (validation rejects, never clamps): on every record whose six
fields are numbers, `validateTestResult` answers `isValid = true` exactly when
`0 ≤ wpm ≤ 300`, `0 ≤ accuracy ≤ 100`, both counters are non-negative,
`totalChars = correctChars + incorrectChars` and `15 ≤ durationSeconds ≤ 120`; when
the total differs from the sum, or the duration is outside `[15, 120]`, it answers
`isValid = false` with the matching message.  The function only reports: its
result holds no record, the one passed in is not touched. -/
theorem validateTestResult_spec
    (wpm accuracy correctChars incorrectChars totalChars durationSeconds : ℚ) :
    ((validateTestResult (numericRecord wpm accuracy correctChars incorrectChars totalChars
        durationSeconds)).isValid = true ↔
      (0 ≤ wpm ∧ wpm ≤ 300) ∧ (0 ≤ accuracy ∧ accuracy ≤ 100) ∧
      0 ≤ correctChars ∧ 0 ≤ incorrectChars ∧
      totalChars = correctChars + incorrectChars ∧
      (15 ≤ durationSeconds ∧ durationSeconds ≤ 120)) ∧
    (totalChars ≠ correctChars + incorrectChars →
      (validateTestResult (numericRecord wpm accuracy correctChars incorrectChars totalChars
        durationSeconds)).isValid = false ∧
      "Total characters must equal correct plus incorrect characters" ∈
        (validateTestResult (numericRecord wpm accuracy correctChars incorrectChars totalChars
          durationSeconds)).errors) ∧
    (durationSeconds < 15 ∨ durationSeconds > 120 →
      (validateTestResult (numericRecord wpm accuracy correctChars incorrectChars totalChars
        durationSeconds)).isValid = false ∧
      "Duration must be between 15 and 120 seconds" ∈
        (validateTestResult (numericRecord wpm accuracy correctChars incorrectChars totalChars
          durationSeconds)).errors) := by
  have hvalid : ∀ l : List String, (l.length == 0) = true ↔ l = [] := by
    intro l; cases l <;> simp
  have hinvalid : ∀ (l : List String) (m : String), m ∈ l → (l.length == 0) = false := by
    intro l m hm; cases l with
    | nil => cases hm
    | cons _ _ => rfl
  refine ⟨?_, ?_, ?_⟩
  · simp only [validateTestResult, numericRecord, fieldLt, fieldGt, fieldSum, fieldStrictNe,
      hvalid, List.append_eq_nil, ite_eq_right_iff, List.cons_ne_nil, imp_false,
      Bool.or_eq_true, decide_eq_true_eq, not_or, not_lt, ne_eq, not_not, gt_iff_lt]
    tauto
  · intro h
    have hm : "Total characters must equal correct plus incorrect characters" ∈
        (validateTestResult (numericRecord wpm accuracy correctChars incorrectChars totalChars
          durationSeconds)).errors := by
      simp [validateTestResult, numericRecord, fieldSum, fieldStrictNe, h]
    exact ⟨hinvalid _ _ hm, hm⟩
  · intro h
    have hm : "Duration must be between 15 and 120 seconds" ∈
        (validateTestResult (numericRecord wpm accuracy correctChars incorrectChars totalChars
          durationSeconds)).errors := by
      have hc : (fieldLt (some durationSeconds) 15 || fieldGt (some durationSeconds) 120) =
          true := by
        simpa [fieldLt, fieldGt] using h
      simp only [validateTestResult, numericRecord, List.mem_append]
      right
      rw [if_pos hc]
      exact List.mem_singleton.mpr rfl
    exact ⟨hinvalid _ _ hm, hm⟩

/-- Witness of C21 as amended: the scenario values with a total of 261, and with a
duration of 10 seconds. -/
theorem validateTestResult_spec_witness :
    ((validateTestResult (numericRecord 50 96 250 10 261 60)).isValid = false ∧
      "Total characters must equal correct plus incorrect characters" ∈
        (validateTestResult (numericRecord 50 96 250 10 261 60)).errors) ∧
    ((validateTestResult (numericRecord 50 96 250 10 260 10)).isValid = false ∧
      "Duration must be between 15 and 120 seconds" ∈
        (validateTestResult (numericRecord 50 96 250 10 260 10)).errors) :=
  ⟨(validateTestResult_spec 50 96 250 10 261 60).2.1 (by norm_num),
    (validateTestResult_spec 50 96 250 10 260 10).2.2 (Or.inl (by norm_num))⟩

/-- C30 (accuracy range): for all non-negative integers `correctChars` and
`incorrectChars`, `calculateAccuracy` lies in `[0, 100]`, and it is `100` exactly
when `incorrectChars = 0`. -/
theorem calculateAccuracy_range (correctChars incorrectChars : ℕ) :
    0 ≤ calculateAccuracy correctChars incorrectChars ∧
    calculateAccuracy correctChars incorrectChars ≤ 100 ∧
    (calculateAccuracy correctChars incorrectChars = 100 ↔ incorrectChars = 0) := by
  unfold calculateAccuracy
  by_cases hz : ((correctChars : ℚ) + incorrectChars) = 0
  · have hi : incorrectChars = 0 := by
      have : correctChars + incorrectChars = 0 := by exact_mod_cast hz
      omega
    simp only [hz, if_true]
    exact ⟨by norm_num, le_refl _, fun _ => hi, fun _ => trivial⟩
  · simp only [hz, if_false]
    have hc : (0 : ℚ) ≤ correctChars := Nat.cast_nonneg _
    have hi : (0 : ℚ) ≤ incorrectChars := Nat.cast_nonneg _
    have hpos : (0 : ℚ) < (correctChars : ℚ) + incorrectChars :=
      lt_of_le_of_ne (add_nonneg hc hi) (Ne.symm hz)
    refine ⟨by positivity, ?_, ?_⟩
    · have : (correctChars : ℚ) / (correctChars + incorrectChars) ≤ 1 :=
        (div_le_one hpos).mpr (by linarith)
      linarith
    · constructor
      · intro h
        have h1 : (correctChars : ℚ) / (correctChars + incorrectChars) = 1 := by linarith
        rw [div_eq_one_iff_eq hz] at h1
        have : (incorrectChars : ℚ) = 0 := by linarith
        exact_mod_cast this
      · intro h
        subst h
        have hc0 : (correctChars : ℚ) ≠ 0 := by simpa using hz
        simp [hc0]

/-- C22 (fingerprint is advisory): for every store, clock value, token and two
fingerprints, `consumeTestSession` returns the same result and leaves the same
store; a returned context always has `securityCheck = true`, so a mismatch with the
recorded fingerprint never makes the call fail (it only shows in the warnings). -/
theorem consumeTestSession_fingerprint_advisory (tu : TokenUtils) (s : Store) (now : Int)
    (token : String) (ip ua ip2 ua2 : Option String) :
    (consumeTestSession tu s now token ip ua).result =
      (consumeTestSession tu s now token ip2 ua2).result ∧
    (consumeTestSession tu s now token ip ua).store =
      (consumeTestSession tu s now token ip2 ua2).store ∧
    ∀ ctx, (consumeTestSession tu s now token ip ua).result = some ctx →
      ctx.securityCheck = true := by
  unfold consumeTestSession
  cases verifyQuery tu s now token with
  | nil => exact ⟨rfl, rfl, fun ctx h => by cases h⟩
  | cons session rest =>
    refine ⟨rfl, rfl, fun ctx h => ?_⟩
    injection h with h
    subst h
    rfl

/-- Witness of C22: the example token presented from the recorded address and from
another one; only the second call logs a warning. -/
theorem consumeTestSession_fingerprint_advisory_witness :
    (consumeTestSession demoUtils demoStore 1000 "tok-a" (some "10.9.9.9") (some "agent")).result =
      (consumeTestSession demoUtils demoStore 1000 "tok-a" (some "10.0.0.1") none).result ∧
    (consumeTestSession demoUtils demoStore 1000 "tok-a" (some "10.9.9.9") (some "agent")).store =
      (consumeTestSession demoUtils demoStore 1000 "tok-a" (some "10.0.0.1") none).store ∧
    (contextOf demoSession).securityCheck = true ∧
    (consumeTestSession demoUtils demoStore 1000 "tok-a" (some "10.9.9.9")
      (some "agent")).warnings = [Warning.ipMismatch 1 "10.0.0.1" "10.9.9.9"] ∧
    (consumeTestSession demoUtils demoStore 1000 "tok-a" (some "10.0.0.1") none).warnings = [] :=
  ⟨(consumeTestSession_fingerprint_advisory demoUtils demoStore 1000 "tok-a"
      (some "10.9.9.9") (some "agent") (some "10.0.0.1") none).1,
    (consumeTestSession_fingerprint_advisory demoUtils demoStore 1000 "tok-a"
      (some "10.9.9.9") (some "agent") (some "10.0.0.1") none).2.1,
    (consumeTestSession_fingerprint_advisory demoUtils demoStore 1000 "tok-a"
      (some "10.9.9.9") (some "agent") (some "10.0.0.1") none).2.2 (contextOf demoSession)
      (by decide),
    by decide, by decide⟩

/-- C24 (text selection): for every text table, draw, language and difficulty,
`getRandomText` returns `null` exactly when no active text matches both filters;
a text it returns is a row of the table that is active and matches both; and when
it returns `null` for the filters of a request, `getText` fails with the 404 error
`No text available for the specified criteria` and leaves the store, so creates no
TestSession. -/
theorem getRandomText_spec (tu : TokenUtils) (s : Store) (now issued : Int) (ttlEnv : Option Int)
    (rand : Nat) (token : String) (language difficulty : String) (req : TextRequest) :
    (getRandomText s rand language difficulty = none ↔
      ∀ x ∈ s.test_texts,
        ¬ (x.language = language ∧ x.difficulty = difficulty ∧ x.is_active = true)) ∧
    (∀ text, getRandomText s rand language difficulty = some text →
      text ∈ s.test_texts ∧ text.is_active = true ∧ text.language = language ∧
      text.difficulty = difficulty) ∧
    (getRandomText s rand (req.query.language.getD "en")
        (req.query.difficulty.getD "medium") = none →
      (getText tu s now issued ttlEnv rand token req).2 =
        .error (.http "No text available for the specified criteria" 404) ∧
      (getText tu s now issued ttlEnv rand token req).1 = s) := by
  refine ⟨?_, ?_, ?_⟩
  · unfold getRandomText
    simp only [List.getElem?_eq_none_iff]
    constructor
    · intro hlen x hx hmatch
      have hnil : s.test_texts.filter (fun x =>
          x.language == language && x.difficulty == difficulty && x.is_active) = [] := by
        by_contra hne
        have hpos := List.length_pos.mpr hne
        exact absurd (Nat.mod_lt rand hpos) (not_lt.mpr hlen)
      have hall := List.filter_eq_nil_iff.mp hnil x hx
      simp [hmatch.1, hmatch.2.1, hmatch.2.2] at hall
    · intro hnone
      have hnil : s.test_texts.filter (fun x =>
          x.language == language && x.difficulty == difficulty && x.is_active) = [] := by
        rw [List.filter_eq_nil_iff]
        intro x hx
        have := hnone x hx
        simpa [and_assoc] using this
      rw [hnil]
      exact Nat.zero_le _
  · intro text htext
    unfold getRandomText at htext
    have hmem := List.getElem?_mem htext
    have hp := List.mem_filter.mp hmem
    have hcond := hp.2
    simp only [Bool.and_eq_true, beq_iff_eq] at hcond
    exact ⟨hp.1, hcond.2, hcond.1.1, hcond.1.2⟩
  · intro hnone
    have hg : getText tu s now issued ttlEnv rand token req =
        (s, .error (.http "No text available for the specified criteria" 404)) := by
      unfold getText
      simp only [hnone]
    rw [hg]
    exact ⟨rfl, rfl⟩

/-- Witness of C24: the example table has a medium English text and no hard one. -/
theorem getRandomText_spec_witness :
    (∃ text, getRandomText textStore 5 "en" "medium" = some text ∧ text ∈ textStore.test_texts ∧
      text.is_active = true ∧ text.language = "en" ∧ text.difficulty = "medium") ∧
    (getText demoUtils textStore 1000 1005 none 5 "tok-n"
        { textRequestOf none (some 4) with
          query := { language := none, difficulty := some "hard", duration := none } }).2 =
      .error (.http "No text available for the specified criteria" 404) ∧
    (getText demoUtils textStore 1000 1005 none 5 "tok-n"
        { textRequestOf none (some 4) with
          query := { language := none, difficulty := some "hard", duration := none } }).1 =
      textStore :=
  ⟨⟨_, rfl,
      (getRandomText_spec demoUtils textStore 1000 1005 none 5 "tok-n" "en" "medium"
        (textRequestOf none none)).2.1 _ rfl⟩,
    (getRandomText_spec demoUtils textStore 1000 1005 none 5 "tok-n" "en" "medium"
      { textRequestOf none (some 4) with
        query := { language := none, difficulty := some "hard", duration := none } }).2.2
      (by decide)⟩

/-! ## Session expiry and the used flag -/

/-- C23 (session expiry): when `TEST_SESSION_TTL_SECONDS` is not configured the TTL
is 600 seconds, when it is configured with a positive integer the TTL is that
value; every session `createTestSession` creates at time `now` has
`expiresAt = now + TTL` seconds, in the returned object and in the stored row; its
`issuedAt` is the clock reading taken after the `INSERT`, and `expiresAt > issuedAt`
holds exactly when the `INSERT` took less than the TTL, so in particular when it
took less than a second. -/
theorem createTestSession_expiry (tu : TokenUtils) (s : Store) (now issued : Int)
    (ttlEnv : Option Int) (token : String) (d : SessionData)
    (httl : ttlEnv = none ∨ ∃ n, ttlEnv = some n ∧ 1 ≤ n) :
    (ttlEnv = none → ttlSeconds ttlEnv = 600) ∧
    (∀ n, ttlEnv = some n → ttlSeconds ttlEnv = n) ∧
    (createTestSession tu s now issued ttlEnv token d).2.expiresAt =
      now + ttlSeconds ttlEnv * 1000 ∧
    (∃ row, (createTestSession tu s now issued ttlEnv token d).1.test_sessions =
        s.test_sessions ++ [row] ∧
      row.expires_at = now + ttlSeconds ttlEnv * 1000) ∧
    (createTestSession tu s now issued ttlEnv token d).2.issuedAt = issued ∧
    ((createTestSession tu s now issued ttlEnv token d).2.issuedAt <
        (createTestSession tu s now issued ttlEnv token d).2.expiresAt ↔
      issued - now < ttlSeconds ttlEnv * 1000) ∧
    (issued - now < 1000 →
      (createTestSession tu s now issued ttlEnv token d).2.issuedAt <
        (createTestSession tu s now issued ttlEnv token d).2.expiresAt) := by
  have hpos : 1 ≤ ttlSeconds ttlEnv := by
    rcases httl with h | ⟨n, h, hn⟩
    · subst h; decide
    · subst h
      have h0 : n ≠ 0 := by omega
      simp only [ttlSeconds, h0, if_false]
      exact hn
  refine ⟨?_, ?_, rfl, ⟨_, rfl, rfl⟩, rfl, ?_, ?_⟩
  · intro h; subst h; rfl
  · intro n h
    subst h
    rcases httl with h | ⟨m, h, hm⟩
    · cases h
    · injection h with h
      subst h
      have h0 : n ≠ 0 := by omega
      simp [ttlSeconds, h0]
  · show issued < now + ttlSeconds ttlEnv * 1000 ↔ issued - now < ttlSeconds ttlEnv * 1000
    constructor <;> intro h <;> omega
  · intro h
    show issued < now + ttlSeconds ttlEnv * 1000
    omega

/-- Witness of C23: no configuration, and a configured TTL of 300, with an `INSERT`
that took 5 milliseconds. -/
theorem createTestSession_expiry_witness :
    ttlSeconds none = 600 ∧ ttlSeconds (some 300) = 300 ∧
    (createTestSession demoUtils demoStore 1000 1005 (some 300) "tok-b"
        demoSessionData).2.expiresAt = 1000 + ttlSeconds (some 300) * 1000 ∧
    (createTestSession demoUtils demoStore 1000 1005 (some 300) "tok-b"
        demoSessionData).2.issuedAt <
      (createTestSession demoUtils demoStore 1000 1005 (some 300) "tok-b"
        demoSessionData).2.expiresAt :=
  ⟨(createTestSession_expiry demoUtils demoStore 1000 1005 none "tok-b" demoSessionData
      (Or.inl rfl)).1 rfl,
    (createTestSession_expiry demoUtils demoStore 1000 1005 (some 300) "tok-b" demoSessionData
      (Or.inr ⟨300, rfl, by decide⟩)).2.1 300 rfl,
    (createTestSession_expiry demoUtils demoStore 1000 1005 (some 300) "tok-b" demoSessionData
      (Or.inr ⟨300, rfl, by decide⟩)).2.2.1,
    (createTestSession_expiry demoUtils demoStore 1000 1005 (some 300) "tok-b" demoSessionData
      (Or.inr ⟨300, rfl, by decide⟩)).2.2.2.2.2.2 (by decide)⟩

/-- C25 fails on the code: `cleanupExpiredSessions`, run when the unused example
session has expired, sets its used flag and reports one affected row. -/
theorem cleanupExpiredSessions_marks_used :
    demoSession.is_used = false ∧
    (cleanupExpiredSessions demoStore 600000).1.test_sessions =
      [{ demoSession with is_used := true }] ∧
    (cleanupExpiredSessions demoStore 600000).2 = 1 := by
  decide

/-- C25 as amended: the used flag of an existing session is changed only by
`consumeTestSession` and by `cleanupExpiredSessions` (on unused sessions that have
expired), and only from false to true.  `createTestSession` appends an unused row
and keeps the others; after `consumeTestSession` and after `cleanupExpiredSessions`
every row is in its place, either as it was or with the flag true;
`deleteOldSessions` keeps the rows it does not delete as they were. -/
theorem used_flag_transitions (tu : TokenUtils) (s : Store) (now issued : Int) (ttlEnv : Option Int)
    (token : String) (d : SessionData) (ip ua : Option String) :
    (∃ row, (createTestSession tu s now issued ttlEnv token d).1.test_sessions =
        s.test_sessions ++ [row] ∧ row.is_used = false) ∧
    (∀ (i : Nat) (r : TestSessionRow), s.test_sessions[i]? = some r →
      ∃ r2, (consumeTestSession tu s now token ip ua).store.test_sessions[i]? = some r2 ∧
        (r2 = r ∨ (r2.is_used = true ∧
          r2 = { r with is_used := true, used_at := some now }))) ∧
    (∀ (i : Nat) (r : TestSessionRow), s.test_sessions[i]? = some r →
      ∃ r2, (cleanupExpiredSessions s now).1.test_sessions[i]? = some r2 ∧
        (r2 = r ∨ (r.is_used = false ∧ r.expires_at ≤ now ∧
          r2 = { r with is_used := true }))) ∧
    (∀ r2 ∈ (deleteOldSessions s now).1.test_sessions, r2 ∈ s.test_sessions) := by
  refine ⟨⟨_, rfl, rfl⟩, ?_, ?_, ?_⟩
  · intro i r hi
    unfold consumeTestSession
    cases verifyQuery tu s now token with
    | nil => exact ⟨r, hi, Or.inl rfl⟩
    | cons session rest =>
      simp only [updateQuery, List.getElem?_map, hi, Option.map_some']
      by_cases hid : r.id = session.id
      · exact ⟨_, rfl, Or.inr ⟨by rw [if_pos hid], by rw [if_pos hid]⟩⟩
      · exact ⟨_, rfl, Or.inl (by rw [if_neg hid])⟩
  · intro i r hi
    simp only [cleanupExpiredSessions, List.getElem?_map, hi, Option.map_some']
    by_cases hc : (decide (r.expires_at ≤ now) && !r.is_used) = true
    · refine ⟨_, rfl, Or.inr ⟨?_, ?_, by rw [if_pos hc]⟩⟩
      · simpa using (Bool.and_eq_true_iff.mp hc).2
      · simpa using (Bool.and_eq_true_iff.mp hc).1
    · exact ⟨_, rfl, Or.inl (by rw [if_neg hc])⟩
  · intro r2 hr2
    exact (List.mem_filter.mp hr2).1

/-- Witness of C25 as amended: the example session before and after its consumption. -/
theorem used_flag_transitions_witness :
    ∃ r2, (consumeTestSession demoUtils demoStore 1000 "tok-a" none none).store.test_sessions[0]? =
        some r2 ∧
      (r2 = demoSession ∨ (r2.is_used = true ∧
        r2 = { demoSession with is_used := true, used_at := some 1000 })) :=
  (used_flag_transitions demoUtils demoStore 1000 1005 none "tok-a" demoSessionData none none).2.1
    0 demoSession rfl

/-! ## Retention sweeps, spent tokens, reconciliation frame -/

/-- A selection is not affected by an update that keeps the criterion and leaves
the selected rows alone. -/
theorem filter_map_of_fixed {α : Type} (p : α → Bool) (f : α → α)
    (h1 : ∀ x, p (f x) = p x) (h2 : ∀ x, p x = true → f x = x) (l : List α) :
    (l.map f).filter p = l.filter p := by
  induction l with
  | nil => rfl
  | cons x xs ih =>
    simp only [List.map_cons, List.filter_cons, h1, ih]
    by_cases hp : p x = true
    · simp only [hp, if_true, h2 x hp]
    · simp only [hp, if_false, Bool.false_eq_true]

theorem consumeTestSession_result_eq (tu : TokenUtils) (s : Store) (now : Int)
    (token : String) (ip ua : Option String) :
    (consumeTestSession tu s now token ip ua).result =
      (verifyQuery tu s now token).head?.map contextOf := by
  unfold consumeTestSession
  cases verifyQuery tu s now token <;> rfl

/-- The rows `cleanupExpiredSessions` rewrites at time `now` are not selectable at
`now` or later, before or after the sweep. -/
theorem verifyQuery_cleanupExpiredSessions (tu : TokenUtils) (s : Store) (now later : Int)
    (token : String) (hle : now ≤ later) :
    verifyQuery tu (cleanupExpiredSessions s now).1 later token = verifyQuery tu s later token := by
  unfold verifyQuery cleanupExpiredSessions
  apply filter_map_of_fixed
  · intro x
    by_cases hc : (decide (x.expires_at ≤ now) && !x.is_used) = true
    · have hexp : x.expires_at ≤ now := by simpa using (Bool.and_eq_true_iff.mp hc).1
      have hnot : ¬ later < x.expires_at := by omega
      rw [if_pos hc]
      simp [verifyWhere, hnot]
    · rw [if_neg hc]
  · intro x hp
    have hlive : later < x.expires_at := by
      simp only [verifyWhere, Bool.and_eq_true, decide_eq_true_eq] at hp
      exact hp.2
    have hc : ¬ (decide (x.expires_at ≤ now) && !x.is_used) = true := by
      intro hc
      have hexp : x.expires_at ≤ now := by simpa using (Bool.and_eq_true_iff.mp hc).1
      omega
    rw [if_neg hc]

/-- The rows `deleteOldSessions` deletes at time `now` are not selectable at `now` or
later. -/
theorem verifyQuery_deleteOldSessions (tu : TokenUtils) (s : Store) (now later : Int)
    (token : String) (hle : now ≤ later) :
    verifyQuery tu (deleteOldSessions s now).1 later token = verifyQuery tu s later token := by
  unfold verifyQuery deleteOldSessions
  simp only [List.filter_filter]
  apply List.filter_congr
  intro x _
  by_cases hp : verifyWhere (tu.hashTestSessionToken token) later x = true
  · have hlive : later < x.expires_at := by
      simp only [verifyWhere, Bool.and_eq_true, decide_eq_true_eq] at hp
      exact hp.2
    have hkeep : ¬ x.expires_at < now - sevenDaysMs := by
      have : (0 : Int) < sevenDaysMs := by decide
      omega
    simp [hp, hkeep]
  · simp [hp]

/-- C29 (sweeps and live sessions): a session that is unused and has
`expires_at > now` is left as it is by `cleanupExpiredSessions` and by
`deleteOldSessions` run at `now` (same row, for the cleanup at the same place); a
`consumeTestSession` at `now` or later returns after either sweep what it returns
without it, and for the token of that session, while it has not expired, it succeeds
(on stores with pairwise distinct token hashes: with the context of that session). -/
theorem sweeps_keep_live_session (tu : TokenUtils) (s : Store) (now later : Int)
    (token : String) (ip ua : Option String) (r : TestSessionRow)
    (hr : r ∈ s.test_sessions) (hused : r.is_used = false) (hlive : now < r.expires_at)
    (hle : now ≤ later) :
    r ∈ (cleanupExpiredSessions s now).1.test_sessions ∧
    r ∈ (deleteOldSessions s now).1.test_sessions ∧
    (∀ i : Nat, s.test_sessions[i]? = some r →
      (cleanupExpiredSessions s now).1.test_sessions[i]? = some r) ∧
    (consumeTestSession tu (cleanupExpiredSessions s now).1 later token ip ua).result =
      (consumeTestSession tu s later token ip ua).result ∧
    (consumeTestSession tu (deleteOldSessions s now).1 later token ip ua).result =
      (consumeTestSession tu s later token ip ua).result ∧
    (r.token_hash = tu.hashTestSessionToken token → later < r.expires_at →
      (consumeTestSession tu (cleanupExpiredSessions s now).1 later token ip ua).result.isSome =
        true ∧
      (consumeTestSession tu (deleteOldSessions s now).1 later token ip ua).result.isSome =
        true ∧
      (TokenHashesDistinct s →
        (consumeTestSession tu (cleanupExpiredSessions s now).1 later token ip ua).result =
          some (contextOf r) ∧
        (consumeTestSession tu (deleteOldSessions s now).1 later token ip ua).result =
          some (contextOf r))) := by
  have h4 : (consumeTestSession tu (cleanupExpiredSessions s now).1 later token ip ua).result =
      (consumeTestSession tu s later token ip ua).result := by
    rw [consumeTestSession_result_eq, consumeTestSession_result_eq,
      verifyQuery_cleanupExpiredSessions tu s now later token hle]
  have h5 : (consumeTestSession tu (deleteOldSessions s now).1 later token ip ua).result =
      (consumeTestSession tu s later token ip ua).result := by
    rw [consumeTestSession_result_eq, consumeTestSession_result_eq,
      verifyQuery_deleteOldSessions tu s now later token hle]
  have hfix : (if (decide (r.expires_at ≤ now) && !r.is_used) = true then
      { r with is_used := true } else r) = r := by
    have hc : ¬ (decide (r.expires_at ≤ now) && !r.is_used) = true := by
      intro hc
      have hexp : r.expires_at ≤ now := by simpa using (Bool.and_eq_true_iff.mp hc).1
      omega
    rw [if_neg hc]
  refine ⟨?_, ?_, ?_, ?_, ?_, ?_⟩
  · simp only [cleanupExpiredSessions, List.mem_map]
    exact ⟨r, hr, hfix⟩
  · simp only [deleteOldSessions, List.mem_filter]
    refine ⟨hr, ?_⟩
    have : (0 : Int) < sevenDaysMs := by decide
    have hkeep : ¬ r.expires_at < now - sevenDaysMs := by omega
    simp [hkeep]
  · intro i hi
    simp only [cleanupExpiredSessions, List.getElem?_map, hi, Option.map_some']
    rw [hfix]
  · exact h4
  · exact h5
  · intro htok hl
    have hmem : r ∈ verifyQuery tu s later token := by
      simp only [verifyQuery, List.mem_filter]
      refine ⟨hr, ?_⟩
      simp [verifyWhere, htok, hused, hl]
    rw [h4, h5, consumeTestSession_result_eq]
    cases hv : verifyQuery tu s later token with
    | nil => rw [hv] at hmem; cases hmem
    | cons x xs =>
      refine ⟨rfl, rfl, fun hd => ?_⟩
      have hx : x ∈ verifyQuery tu s later token := by simp [hv]
      obtain ⟨hxin, hxhash, -, -⟩ := verifyQuery_mem hx
      have : x = r := tokenHash_injOn hd hxin hr (hxhash.trans htok.symm)
      subst this
      exact ⟨rfl, rfl⟩

/-- Witness of C29: both sweeps run at time 1000 on the example store, the example
token consumed at time 2000. -/
theorem sweeps_keep_live_session_witness :
    demoSession ∈ (cleanupExpiredSessions demoStore 1000).1.test_sessions ∧
    demoSession ∈ (deleteOldSessions demoStore 1000).1.test_sessions ∧
    (consumeTestSession demoUtils (cleanupExpiredSessions demoStore 1000).1 2000 "tok-a"
        none none).result =
      (consumeTestSession demoUtils demoStore 2000 "tok-a" none none).result ∧
    (consumeTestSession demoUtils (deleteOldSessions demoStore 1000).1 2000 "tok-a"
        none none).result =
      (consumeTestSession demoUtils demoStore 2000 "tok-a" none none).result ∧
    (consumeTestSession demoUtils (cleanupExpiredSessions demoStore 1000).1 2000 "tok-a"
        none none).result = some (contextOf demoSession) :=
  ⟨(sweeps_keep_live_session demoUtils demoStore 1000 2000 "tok-a" none none demoSession
      (by decide) rfl (by decide) (by decide)).1,
    (sweeps_keep_live_session demoUtils demoStore 1000 2000 "tok-a" none none demoSession
      (by decide) rfl (by decide) (by decide)).2.1,
    (sweeps_keep_live_session demoUtils demoStore 1000 2000 "tok-a" none none demoSession
      (by decide) rfl (by decide) (by decide)).2.2.2.1,
    (sweeps_keep_live_session demoUtils demoStore 1000 2000 "tok-a" none none demoSession
      (by decide) rfl (by decide) (by decide)).2.2.2.2.1,
    (((sweeps_keep_live_session demoUtils demoStore 1000 2000 "tok-a" none none demoSession
      (by decide) rfl (by decide) (by decide)).2.2.2.2.2 (by decide) (by decide)).2.2
      (by decide)).1⟩

/-- Once the `UPDATE` has marked the verified session, no session is found for the
token any more, at any time. -/
theorem verifyQuery_updateQuery_nil (tu : TokenUtils) (s : Store) (now later : Int)
    (token : String) (session : TestSessionRow) (rest : List TestSessionRow)
    (hd : TokenHashesDistinct s) (hv : verifyQuery tu s now token = session :: rest) :
    verifyQuery tu (updateQuery s now session.id) later token = [] := by
  have hmem : session ∈ verifyQuery tu s now token := by simp [hv]
  obtain ⟨hin, hhash, -, -⟩ := verifyQuery_mem hmem
  rw [verifyQuery, List.filter_eq_nil_iff]
  intro r2 hr2
  simp only [updateQuery, List.mem_map] at hr2
  obtain ⟨r, hr, rfl⟩ := hr2
  by_cases hid : r.id = session.id
  · simp [hid, verifyWhere]
  · have hne : r ≠ session := fun e => hid (by rw [e])
    have hh : r.token_hash ≠ tu.hashTestSessionToken token := fun e =>
      hne (tokenHash_injOn hd hr hin (e.trans hhash.symm))
    simp [hid, verifyWhere, hh]

/-- A submission that ends in the duration mismatch has verified a session and
marked it used. -/
theorem submitResult_mismatch_inv (tu : TokenUtils) (s : Store) (now : Int)
    (req : SubmitRequest)
    (h : (submitResult tu s now req).2 = .error (.http "Duration mismatch with session" 400)) :
    ∃ session rest, verifyQuery tu s now req.body.sessionToken = session :: rest ∧
      (submitResult tu s now req).1 = updateQuery s now session.id := by
  unfold submitResult consumeTestSession at h ⊢
  cases hv : verifyQuery tu s now req.body.sessionToken with
  | nil =>
    simp only [hv] at h
    injection h with h
    injection h with h _
    exact absurd h (by decide)
  | cons session rest =>
    simp only [hv] at h ⊢
    refine ⟨session, rest, rfl, ?_⟩
    by_cases hdur : (contextOf session).durationSeconds = req.body.durationSeconds
    · rw [if_neg (not_not.mpr hdur)] at h
      split at h
      · split at h
        · split at h
          · cases h
          · cases h
        · cases h
      · cases h
    · rw [if_pos hdur]

/-- C26 (single use even on failure): on a store whose token hashes are pairwise
distinct, when `submitResult` has ended in `Duration mismatch with session`, a
later `submitResult` with the same token, whatever duration and metrics it
declares and whenever it comes, fails with the 400 error
`Invalid or expired session token`. -/
theorem submitResult_token_spent (tu : TokenUtils) (s : Store) (now later : Int)
    (req req2 : SubmitRequest) (hd : TokenHashesDistinct s)
    (h : (submitResult tu s now req).2 = .error (.http "Duration mismatch with session" 400))
    (htok : req2.body.sessionToken = req.body.sessionToken) :
    (submitResult tu (submitResult tu s now req).1 later req2).2 =
      .error (.http "Invalid or expired session token" 400) := by
  obtain ⟨session, rest, hv, hstore⟩ := submitResult_mismatch_inv tu s now req h
  have hnil := verifyQuery_updateQuery_nil tu s now later req.body.sessionToken session rest hd hv
  rw [hstore]
  unfold submitResult consumeTestSession
  simp only [htok, hnil]

/-- Witness of C26: the example token sent with a declared duration of 30 seconds,
then again with the bound 60 seconds. -/
theorem submitResult_token_spent_witness :
    (submitResult demoUtils demoStore 1000
        { demoRequest with body := { demoRequest.body with durationSeconds := 30 } }).2 =
      .error (.http "Duration mismatch with session" 400) ∧
    (submitResult demoUtils
        (submitResult demoUtils demoStore 1000
          { demoRequest with body := { demoRequest.body with durationSeconds := 30 } }).1
        2000 demoRequest).2 = .error (.http "Invalid or expired session token" 400) :=
  ⟨rfl, submitResult_token_spent demoUtils demoStore 1000 2000
      { demoRequest with body := { demoRequest.body with durationSeconds := 30 } } demoRequest
      (by decide) rfl rfl⟩

/-- C28 (reconciliation frame): `claimGuestResults(guestId, userId)` leaves the
tables `test_sessions`, `users` (so the target user's stats), `test_texts` and
`refresh_tokens` as they were; every result stays in its place and differs from
what it was at most in `user_id` and `guest_session_id`, and not at all unless it
belonged to the claimed guest session; every guest session stays in its place and
differs at most in `is_active`, and not at all unless it carries `guestId`. -/
theorem claimGuestResults_frame (s : Store) (guestId : String) (userId : Nat) :
    (claimGuestResults s guestId userId).1.test_sessions = s.test_sessions ∧
    (claimGuestResults s guestId userId).1.users = s.users ∧
    (claimGuestResults s guestId userId).1.test_texts = s.test_texts ∧
    (claimGuestResults s guestId userId).1.refresh_tokens = s.refresh_tokens ∧
    (∀ (i : Nat) (r : TestResultRow), s.test_results[i]? = some r →
      ∃ r2, (claimGuestResults s guestId userId).1.test_results[i]? = some r2 ∧
        { r2 with user_id := r.user_id, guest_session_id := r.guest_session_id } = r ∧
        ((∀ g, getGuestSessionById s guestId = some g → r.guest_session_id ≠ some g.id) →
          r2 = r)) ∧
    (∀ (i : Nat) (x : GuestSessionRow), s.guest_sessions[i]? = some x →
      ∃ x2, (claimGuestResults s guestId userId).1.guest_sessions[i]? = some x2 ∧
        { x2 with is_active := x.is_active } = x ∧ (x.guest_id ≠ guestId → x2 = x)) := by
  cases hg : getGuestSessionById s guestId with
  | none =>
    have hc : claimGuestResults s guestId userId = (s, .error "Guest session not found") := by
      rw [claimGuestResults, hg]
    rw [hc]
    exact ⟨rfl, rfl, rfl, rfl, fun i r hi => ⟨r, hi, rfl, fun _ => rfl⟩,
      fun i x hi => ⟨x, hi, rfl, fun _ => rfl⟩⟩
  | some g =>
    rw [claimGuestResults_of_active s guestId userId g hg]
    refine ⟨rfl, rfl, rfl, rfl, ?_, ?_⟩
    · intro i r hi
      simp only [deactivateGuestSession, List.getElem?_map, hi, Option.map_some']
      by_cases hown : r.guest_session_id = some g.id
      · refine ⟨_, rfl, by rw [if_pos hown], fun hno => absurd hown (hno g rfl)⟩
      · exact ⟨_, rfl, by rw [if_neg hown], fun _ => by rw [if_neg hown]⟩
    · intro i x hi
      simp only [deactivateGuestSession, List.getElem?_map, hi, Option.map_some']
      by_cases hid : x.guest_id = guestId
      · exact ⟨_, rfl, by rw [if_pos hid], fun hne => absurd hid hne⟩
      · exact ⟨_, rfl, by rw [if_neg hid], fun _ => by rw [if_neg hid]⟩

/-- Witness of C28: in the example claim of guest `g-1`, result 2 of guest 5 and the
guest session `g-2` stay as they are. -/
theorem claimGuestResults_frame_witness :
    (∃ r2, (claimGuestResults guestStore "g-1" 8).1.test_results[1]? = some r2 ∧
      { r2 with user_id := none, guest_session_id := some 5 } = resultOf 2 none (some 5) ∧
      ((∀ g, getGuestSessionById guestStore "g-1" = some g → some 5 ≠ some g.id) →
        r2 = resultOf 2 none (some 5))) ∧
    (claimGuestResults guestStore "g-1" 8).1.users = guestStore.users :=
  ⟨(claimGuestResults_frame guestStore "g-1" 8).2.2.2.2.1 1 (resultOf 2 none (some 5)) rfl,
    (claimGuestResults_frame guestStore "g-1" 8).2.1⟩

/-! ## Client counters -/

/-- After the loop of `handleInput`, an index is in the set when it lies inside the
new input and its character differs from the text's, or when it lies at or beyond
the end of the new input and was in the set before. -/
theorem mem_trackErrors (newInput testText : String) (errors : Finset ℕ) (i : ℕ) :
    i ∈ trackErrors newInput testText errors ↔
      (i < newInput.length ∧ newInput.toList[i]? ≠ testText.toList[i]?) ∨
      (newInput.length ≤ i ∧ i ∈ errors) := by
  unfold trackErrors
  generalize newInput.length = n
  induction n with
  | zero => simp
  | succ n ih =>
    rw [List.range_succ, List.foldl_append]
    simp only [List.foldl_cons, List.foldl_nil]
    by_cases hin : i = n
    · subst hin
      by_cases hc : newInput.toList[i]? ≠ testText.toList[i]?
      · rw [if_pos hc]
        simp only [Finset.mem_insert, true_or, true_iff]
        exact Or.inl ⟨Nat.lt_succ_self _, hc⟩
      · rw [if_neg hc]
        simp only [Finset.mem_erase, ne_eq, not_true_eq_false, false_and, false_iff, not_or,
          not_and]
        exact ⟨fun _ => hc, fun h => absurd h (by omega)⟩
    · have h1 : i < n + 1 ↔ i < n := by omega
      have h2 : n + 1 ≤ i ↔ n ≤ i := by omega
      by_cases hc : newInput.toList[n]? ≠ testText.toList[n]?
      · rw [if_pos hc, Finset.mem_insert, ih, h1, h2]
        simp [hin]
      · rw [if_neg hc, Finset.mem_erase, ih, h1, h2]
        simp [hin]

/-- C27 fails on the code: on the text `hello`, after `h`, then `hx`, then `h` again
(the wrong character deleted), the input has length 1 and matches the text, yet the
error set still holds index 1; `finishTest` then reports 1 correct, 1 incorrect and
1 total character, and the server chain rejects that body because the total is not
the sum. -/
theorem handleInput_keeps_deleted_error :
    backspacedTyping.userInput = "h" ∧ backspacedTyping.testState = .active ∧
    1 ∈ backspacedTyping.errors ∧ ¬ (1 < backspacedTyping.userInput.length) ∧
    (finishTest backspacedTyping 31000).results.map
        (fun r => (r.correctChars, r.incorrectChars, r.totalChars)) = some (1, 1, 1) ∧
    (∀ r, (finishTest backspacedTyping 31000).results = some r →
      "Total characters must equal correct characters plus incorrect characters" ∈
        validateTestSubmissionErrors (submissionOf backspacedTyping.sessionToken r)) := by
  refine ⟨by decide, by decide, by decide, by decide, by decide, ?_⟩
  intro r hr
  have hcounts : (r.correctChars, r.incorrectChars, r.totalChars) = (1, 1, 1) := by
    have h : (finishTest backspacedTyping 31000).results.map
        (fun r => (r.correctChars, r.incorrectChars, r.totalChars)) = some (1, 1, 1) := by
      decide
    rw [hr] at h
    exact Option.some.inj h
  have h1 : r.correctChars = 1 := congrArg (fun p => p.1) hcounts
  have h2 : r.incorrectChars = 1 := congrArg (fun p => p.2.1) hcounts
  have h3 : r.totalChars = 1 := congrArg (fun p => p.2.2) hcounts
  simp only [validateTestSubmissionErrors, submissionOf, List.mem_append, h1, h2, h3]
  right
  rw [if_pos (by decide)]
  exact List.mem_singleton.mpr rfl

end Speedtype
